import Mathlib

/-!
Shallow embedding of the CLRSPseudocode implementation (Rust) in Lean 4.

Conventions of the embedding:
* `f64` numbers are modelled exactly by the fraction type `F64` below.  Every
  claim exercises only arithmetic in ranges where `f64` arithmetic is exact,
  so the exact-rational model coincides with the source behaviour on those
  inputs.  (Float-specific values — infinities, NaN, rounding — are outside
  the model.)
* Rust's `Rc<RefCell<(Vec<Value>, Value)>>` arrays are modelled with an explicit
  heap of cells addressed by `Nat`; a `Value.Array` holds the address.
* Fallible code returns `Except Err _`; Rust panics (`todo!`, `unwrap` on
  `None`, out-of-range `Vec` indexing) are modelled with the distinguished
  error `Err.panic`, and fuel exhaustion of the fuelled recursions with
  `Err.outOfFuel` so that it can never be confused with a genuine outcome.
* Error messages keep the constant template text of the source format strings;
  interpolated *numeric* values are omitted (string fragments such as variable
  names are kept verbatim).  `RuntimeError::ArgumentCountError` keeps its
  payload.  The `finish`/`finish_no_token` conversions of
  `src/interpreter/error.rs` only reformat errors into located diagnostics, so
  they are modelled as the identity on the error value.
* Source locations, tokens' positions, the `last_line`/`last_lines`
  bookkeeping of the VM (which only feeds the visualizer) and `Print`'s actual
  output are not modelled; no claim depends on them.
-/

namespace CLRS

/-- Runtime errors: mirrors `RuntimeError` (src/interpreter/error.rs) plus
`GenericError`-based failures, Rust panics, and fuel exhaustion of the model's
fuelled recursion. -/
inductive Err where
  | argumentCountError (expected got : Nat)
  | messageError (msg : String)
  | genericError (msg : String)
  | panic
  | outOfFuel
deriving Repr, DecidableEq

/-- Exact model of the source's `f64` values as unnormalized fractions
`num / den`.  Every value the implementation constructs keeps `0 < den`
(literals and casts have `den = 1`, and sums/products preserve positivity);
the arithmetic below is exact rational arithmetic, which coincides with `f64`
arithmetic on all values the claims exercise.  Comparisons, equality and the
`fract`/cast operations are semantic (cross-multiplied), so the concrete
representation is never observable to programs. -/
structure F64 where
  num : Int
  den : Int
deriving Repr, DecidableEq

namespace F64

def ofInt (n : Int) : F64 := ⟨n, 1⟩

instance : OfNat F64 n := ⟨⟨n, 1⟩⟩

instance : IntCast F64 := ⟨ofInt⟩

instance : NatCast F64 := ⟨fun n => ⟨n, 1⟩⟩

instance : Add F64 := ⟨fun a b => ⟨a.num * b.den + b.num * a.den, a.den * b.den⟩⟩

instance : Sub F64 := ⟨fun a b => ⟨a.num * b.den - b.num * a.den, a.den * b.den⟩⟩

instance : Mul F64 := ⟨fun a b => ⟨a.num * b.num, a.den * b.den⟩⟩

/-- Division; `f64` division by zero (an infinity) is outside the model. -/
instance : Div F64 := ⟨fun a b =>
  if 0 ≤ b.num then ⟨a.num * b.den, a.den * b.num⟩
  else ⟨-(a.num * b.den), -(a.den * b.num)⟩⟩

instance : LT F64 := ⟨fun a b => a.num * b.den < b.num * a.den⟩

instance : LE F64 := ⟨fun a b => a.num * b.den ≤ b.num * a.den⟩

instance (a b : F64) : Decidable (a < b) :=
  inferInstanceAs (Decidable (a.num * b.den < b.num * a.den))

instance (a b : F64) : Decidable (a ≤ b) :=
  inferInstanceAs (Decidable (a.num * b.den ≤ b.num * a.den))

/-- `f64` equality (`==`): semantic equality of the fractions. -/
def beq (a b : F64) : Bool := a.num * b.den == b.num * a.den

/-- `fract() == 0.0`. -/
def isInt (q : F64) : Bool := q.num % q.den == 0

/-- `> 0.0` (for the positive denominators the implementation maintains). -/
def pos (q : F64) : Bool := 0 < q.num

/-- `as i64`: truncation toward zero (exact on the guarded integer uses). -/
def toInt (q : F64) : Int := q.num.tdiv q.den

/-- `as usize`: truncating, saturating at zero. -/
def toUsize (q : F64) : Nat := (q.num.tdiv q.den).toNat

/-- `f64::floor`. -/
def floor (q : F64) : F64 := ⟨q.num.fdiv q.den, 1⟩

/-- `f64::ceil`. -/
def ceil (q : F64) : F64 := ⟨-((-q.num).fdiv q.den), 1⟩

instance : ToString F64 := ⟨fun q => toString q.num ++ "/" ++ toString q.den⟩

end F64

/-- `Value` (src/interpreter/value.rs): `Array` holds a heap address standing
for the shared `Rc<RefCell<(Vec<Value>, Value)>>` backing cell. -/
inductive Value where
  | Number (n : F64)
  | Array (addr : Nat)
  | Boolean (b : Bool)
  | none
deriving Repr, DecidableEq

/-- The heap of array backing cells: cell = (elements, heapsize slot). -/
structure Heap where
  cells : List (List Value × Value)
deriving Repr, DecidableEq

namespace Heap

def empty : Heap := ⟨[]⟩

def get (h : Heap) (addr : Nat) : Option (List Value × Value) :=
  h.cells.get? addr

/-- Allocate a fresh cell (a new `Rc`), returning its address. -/
def alloc (h : Heap) (cell : List Value × Value) : Nat × Heap :=
  (h.cells.length, ⟨h.cells ++ [cell]⟩)

def set (h : Heap) (addr : Nat) (cell : List Value × Value) : Heap :=
  ⟨h.cells.set addr cell⟩

end Heap

/-- `Value::get_type_name` (src/interpreter/value.rs). -/
def Value.get_type_name : Value → String
  | .Number _ => "number"
  | .none => "none"
  | .Boolean _ => "bool"
  | .Array _ => "array"

/-- Rust `Value::eq` (derived `PartialEq`): arrays are compared through the
`Rc`, i.e. structurally by elements and heapsize.  The recursion goes through
heap cells, so it is fuelled; for the acyclic heaps the language can build,
fuel `h.cells.length + 1` is sufficient. -/
def valueEqFuel (h : Heap) : Nat → Value → Value → Bool
  | _, .Number a, .Number b => F64.beq a b
  | _, .Boolean a, .Boolean b => a == b
  | _, .none, .none => true
  | fuel + 1, .Array i, .Array j =>
    match h.get i, h.get j with
    | some (xs, hx), some (ys, hy) =>
      xs.length == ys.length
        && (List.zip xs ys).all (fun p => valueEqFuel h fuel p.1 p.2)
        && valueEqFuel h fuel hx hy
    | _, _ => false
  | 0, .Array _, .Array _ => false
  | _, _, _ => false

def valueEq (h : Heap) (a b : Value) : Bool :=
  valueEqFuel h (h.cells.length + 1) a b

/-- `get_args1` (src/interpreter/builtin.rs). -/
def get_args1 {α : Type} (args : List α) : Except Err α :=
  match args with
  | [a] => .ok a
  | _ => .error (.argumentCountError 1 args.length)

/-- `get_args2` (src/interpreter/builtin.rs). -/
def get_args2 {α : Type} (args : List α) : Except Err (α × α) :=
  match args with
  | [a, b] => .ok (a, b)
  | _ => .error (.argumentCountError 2 args.length)

/-- `builtin_assert_eq` (src/interpreter/builtin.rs). -/
def builtin_assert_eq (h : Heap) (args : List Value) : Except Err Value := do
  let (a, b) ← get_args2 args
  if valueEq h a b then
    .ok Value.none
  else
    .error (.genericError "assertation failed: values do not match")

/-- `builtin_array` (src/interpreter/builtin.rs): allocates a fresh shared
cell with the given elements and heapsize `Number 0`. -/
def builtin_array (h : Heap) (args : List Value) : Value × Heap :=
  let (addr, h') := h.alloc (args, Value.Number 0)
  (Value.Array addr, h')

/-- `builtin_print` (src/interpreter/builtin.rs): output is not modelled;
the returned value is `None`. -/
def builtin_print (_args : List Value) : Except Err Value :=
  .ok Value.none

/-- `builtin_add` (src/interpreter/builtin.rs). -/
def builtin_add (args : List Value) : Except Err Value := do
  let (a, b) ← get_args2 args
  match a, b with
  | .Number x, .Number y => .ok (.Number (x + y))
  | _, _ =>
    .error (.messageError ("cannot add values of type " ++ a.get_type_name
      ++ " and " ++ b.get_type_name))

/-- `builtin_sub` (src/interpreter/builtin.rs). -/
def builtin_sub (args : List Value) : Except Err Value := do
  let (a, b) ← get_args2 args
  match a, b with
  | .Number x, .Number y => .ok (.Number (x - y))
  | _, _ =>
    .error (.messageError ("cannot subtract values of type " ++ a.get_type_name
      ++ " and " ++ b.get_type_name))

/-- `builtin_mul` (src/interpreter/builtin.rs). -/
def builtin_mul (args : List Value) : Except Err Value := do
  let (a, b) ← get_args2 args
  match a, b with
  | .Number x, .Number y => .ok (.Number (x * y))
  | _, _ =>
    .error (.messageError ("cannot multiply values of type " ++ a.get_type_name
      ++ " and " ++ b.get_type_name))

/-- `builtin_div` (src/interpreter/builtin.rs).  (No claim divides by
zero.) -/
def builtin_div (args : List Value) : Except Err Value := do
  let (a, b) ← get_args2 args
  match a, b with
  | .Number x, .Number y => .ok (.Number (x / y))
  | _, _ =>
    .error (.messageError ("cannot divide values of type " ++ a.get_type_name
      ++ " and " ++ b.get_type_name))

def comparisonError (a b : Value) : Err :=
  .messageError ("cannot compare values of type " ++ a.get_type_name
    ++ " and " ++ b.get_type_name)

/-- `builtin_greater_than` (src/interpreter/builtin.rs). -/
def builtin_greater_than (args : List Value) : Except Err Value := do
  let (a, b) ← get_args2 args
  match a, b with
  | .Number x, .Number y => .ok (.Boolean (decide (x > y)))
  | _, _ => .error (comparisonError a b)

/-- `builtin_less_than` (src/interpreter/builtin.rs). -/
def builtin_less_than (args : List Value) : Except Err Value := do
  let (a, b) ← get_args2 args
  match a, b with
  | .Number x, .Number y => .ok (.Boolean (decide (x < y)))
  | _, _ => .error (comparisonError a b)

/-- `builtin_greater_than_equal` (src/interpreter/builtin.rs). -/
def builtin_greater_than_equal (args : List Value) : Except Err Value := do
  let (a, b) ← get_args2 args
  match a, b with
  | .Number x, .Number y => .ok (.Boolean (decide (x ≥ y)))
  | _, _ => .error (comparisonError a b)

/-- `builtin_less_than_equal` (src/interpreter/builtin.rs). -/
def builtin_less_than_equal (args : List Value) : Except Err Value := do
  let (a, b) ← get_args2 args
  match a, b with
  | .Number x, .Number y => .ok (.Boolean (decide (x ≤ y)))
  | _, _ => .error (comparisonError a b)

/-- `builtin_equality` (src/interpreter/builtin.rs). -/
def builtin_equality (h : Heap) (args : List Value) : Except Err Value := do
  let (a, b) ← get_args2 args
  .ok (.Boolean (valueEq h a b))

/-- `builtin_inequality` (src/interpreter/builtin.rs). -/
def builtin_inequality (h : Heap) (args : List Value) : Except Err Value := do
  let (a, b) ← get_args2 args
  .ok (.Boolean (! valueEq h a b))


/-- `builtin_indexing` (src/interpreter/builtin.rs): 1-based; the index must be
a positive integer (`fract == 0.0 && index > 0.0`, i.e. `q.den = 1 ∧ 0 < q`)
and in range. -/
def builtin_indexing (h : Heap) (args : List Value) : Except Err Value := do
  let (a, b) ← get_args2 args
  match a with
  | .Array addr =>
    match b with
    | .Number index =>
      if index.isInt && index.pos then
        match h.get addr with
        | some (elems, _) =>
          match elems.get? (index.toUsize - 1) with
          | some v => .ok v
          | Option.none => .error (.messageError "index is out of bounds")
        | Option.none => .error .panic
      else
        .error (.messageError "index is not a positive integer")
    | _ =>
      .error (.messageError ("cannot index using type " ++ b.get_type_name))
  | _ =>
    .error (.messageError ("cannot index into type " ++ a.get_type_name))

/-- `builtin_mutable_indexing` (src/interpreter/builtin.rs). -/
def builtin_mutable_indexing (h : Heap) (args : List Value)
    (value_to_assign : Value) : Except Err Heap := do
  let (a, b) ← get_args2 args
  match a with
  | .Array addr =>
    match b with
    | .Number index =>
      if index.isInt && index.pos then
        match h.get addr with
        | some (elems, hs) =>
          if index.toUsize - 1 < elems.length then
            .ok (h.set addr (elems.set (index.toUsize - 1) value_to_assign, hs))
          else
            .error (.messageError "index is out of bounds")
        | Option.none => .error .panic
      else
        .error (.messageError "index is not a positive integer")
    | _ =>
      .error (.messageError ("cannot index using type " ++ b.get_type_name))
  | _ =>
    .error (.messageError ("cannot index into type " ++ a.get_type_name))

/-- `builtin_member_access` (src/interpreter/builtin.rs): `.length` and
`.heapsize` on arrays; everything else is an error. -/
def builtin_member_access (h : Heap) (arg0 : Value) (member : String) :
    Except Err Value :=
  match arg0 with
  | .Number _ => .error (.genericError ("cannot access member '" ++ member ++ "' of  number"))
  | .Array addr =>
    if member = "length" then
      match h.get addr with
      | some (elems, _) => .ok (.Number elems.length)
      | Option.none => .error .panic
    else if member = "heapsize" then
      match h.get addr with
      | some (_, hs) => .ok hs
      | Option.none => .error .panic
    else
      .error (.genericError ("cannot access member '" ++ member ++ "' of  none"))
  | .none => .error (.genericError ("cannot access member '" ++ member ++ "' of  none"))
  | .Boolean _ => .error (.genericError ("cannot access member '" ++ member ++ "' of  bool"))

/-- `builtin_mutable_member_access` (src/interpreter/builtin.rs): `.heapsize`
is writable, `.length` is immutable. -/
def builtin_mutable_member_access (h : Heap) (arg0 : Value) (member : String)
    (value : Value) : Except Err Heap :=
  match arg0 with
  | .Number _ => .error (.genericError ("cannot access member '" ++ member ++ "' of  number"))
  | .Array addr =>
    if member = "length" then
      .error (.genericError "member length of array is immutable")
    else if member = "heapsize" then
      match h.get addr with
      | some (elems, _) => .ok (h.set addr (elems, value))
      | Option.none => .error .panic
    else
      .error (.genericError ("cannot access member '" ++ member ++ "' of  none"))
  | .none => .error (.genericError ("cannot access member '" ++ member ++ "' of  none"))
  | .Boolean _ => .error (.genericError ("cannot access member '" ++ member ++ "' of  bool"))

/-- `builtin_floor` (src/interpreter/builtin.rs). -/
def builtin_floor (args : List Value) : Except Err Value := do
  let v ← get_args1 args
  match v with
  | .Number x => .ok (.Number x.floor)
  | _ =>
    .error (.messageError ("cannot take floor of type " ++ v.get_type_name))

/-- `builtin_ceil` (src/interpreter/builtin.rs). -/
def builtin_ceil (args : List Value) : Except Err Value := do
  let v ← get_args1 args
  match v with
  | .Number x => .ok (.Number x.ceil)
  | _ =>
    .error (.messageError ("cannot take ceiling of type " ++ v.get_type_name))

end CLRS

namespace CLRS

/-- `ExpressionType` (src/parser/parsetree.rs). -/
inductive ExpressionType where
  | Assignment
  | Add
  | Subtract
  | Multiply
  | Divide
  | MemberAccess
  | Indexing
  | LogicalOr
  | LogicalAnd
  | LessThan
  | GreaterThan
  | LessThanEqual
  | GreaterThanEqual
  | Equality
  | Inequality
  | FunctionCall
deriving Repr, DecidableEq

/-- `ParseTreeNode` (src/parser/parsetree.rs); tokens are reduced to their
text, numeric literals to their parsed value, and source locations dropped. -/
inductive PTree where
  | Function (name : String) (arguments : List String) (block : PTree)
  | Block (statements : List PTree)
  | ReturnStatement (expression : Option PTree)
  | IdentifierValue (token : String)
  | NumericValue (value : F64)
  | IfStatement (ifs : List (PTree × PTree)) (else_block : Option PTree)
  | ForLoop (loop_variable : String) (bound0 bound1 : PTree) (reverse : Bool)
      (block : PTree)
  | WhileLoop (condition : PTree) (block : PTree)
  | Expr (expression_type : ExpressionType) (children : List PTree)
deriving Repr

/-- `Token::extract_text` as used for the member of a `MemberAccess`
(`children[1].get_token()`); the parser only ever puts an identifier or a
parenthesised value there, and real programs use identifiers.  Texts of
non-identifier tokens are not modelled. -/
def memberText : PTree → String
  | .IdentifierValue t => t
  | _ => ""

/-- An association list standing for Rust's `HashMap` (only lookups and
inserts are used; iteration order never matters). -/
def assocLookup {α : Type} (m : List (String × α)) (k : String) : Option α :=
  (m.find? (fun p => p.1 = k)).map (·.2)

def assocInsert {α : Type} (m : List (String × α)) (k : String) (v : α) :
    List (String × α) :=
  (k, v) :: m.filter (fun p => p.1 ≠ k)

/-- `Function` (src/interpreter/function.rs): name is the table key. -/
structure FuncDef where
  arguments : List String
  block : PTree
deriving Repr

abbrev FuncTable := List (String × FuncDef)

/-- `Executor` variables plus the global array heap (the `Rc` cells shared by
all executors). -/
structure St where
  env : List (String × Value)
  heap : Heap
deriving Repr

/-- `Function::execute` parameter binding: `arguments.iter().zip(...)`. -/
def bindArgs (names : List String) (args : List Value) :
    List (String × Value) :=
  (names.zip args).foldl (fun e p => assocInsert e p.1 p.2) []

/-- Request for the interpreter dispatcher: each constructor corresponds to
one recursion entry point of the tree-walking interpreter
(src/interpreter/parsetree.rs, context.rs, builtin.rs):
`node` = `ParseTreeNode::execute`, `stmts` = the `Block` statement loop,
`args` = the `children.iter().map(execute).collect()` pattern,
`mut` = `ParseTreeNode::execute_mutable`,
`call` = `RunTime::execute_function`,
`forloop` = the `ForLoop` while loop,
`ifclauses` = the `IfStatement` clause loop. -/
inductive IReq where
  | node (t : PTree)
  | stmts (ts : List PTree)
  | args (ts : List PTree)
  | mut (t : PTree) (v : Value)
  | call (name : String) (argv : List Value)
  | forloop (var : String) (i target : Int) (reverse : Bool) (block : PTree)
  | ifclauses (ifs : List (PTree × PTree)) (else_block : Option PTree)

/-- Result of a dispatcher request: `r1` = a `(Value, bool)` execute result
(the bool is the `Return`-propagation flag), `r2` = a list of argument
values. -/
inductive IRes where
  | r1 (v : Value) (flag : Bool)
  | r2 (vs : List Value)
deriving Repr

/-- The tree-walking interpreter, translated arm by arm from
`ParseTreeNode::execute` / `execute_mutable` (src/interpreter/parsetree.rs),
the builtins (src/interpreter/builtin.rs) and
`RunTime::execute_function` / `inner_execute_function`
(src/interpreter/context.rs).  Recursion is on fuel so that the definition
stays kernel-computable; `Err.outOfFuel` marks exhaustion. -/
def interp (ft : FuncTable) : Nat → IReq → St → Except Err (IRes × St)
  | 0, _, _ => .error .outOfFuel
  | fuel + 1, req, st =>
    match req with
    | .node t =>
      match t with
      | .Block statements => interp ft fuel (.stmts statements) st
      | .Expr ety children =>
        match ety with
        | .FunctionCall =>
          match children with
          | [] => .error .panic
          | f :: rest =>
            match interp ft fuel (.args rest) st with
            | .error e => .error e
            | .ok (.r2 argv, st') =>
              match f with
              | .IdentifierValue token =>
                match interp ft fuel (.call token argv) st' with
                | .error e => .error e
                | .ok (.r1 v _, st'') => .ok (.r1 v false, st'')
                | .ok _ => .error .panic
              | _ => .error (.genericError "unable to execute non-function value")
            | .ok _ => .error .panic
        | .Assignment =>
          match children with
          | c0 :: c1 :: _ =>
            match interp ft fuel (.node c1) st with
            | .error e => .error e
            | .ok (.r1 value _, st') =>
              match interp ft fuel (.mut c0 value) st' with
              | .error e => .error e
              | .ok (_, st'') => .ok (.r1 value false, st'')
            | .ok _ => .error .panic
          | _ => .error .panic
        | .Add =>
          match interp ft fuel (.args children) st with
          | .error e => .error e
          | .ok (.r2 argv, st') =>
            (builtin_add argv).map (fun v => (.r1 v false, st'))
          | .ok _ => .error .panic
        | .Subtract =>
          match interp ft fuel (.args children) st with
          | .error e => .error e
          | .ok (.r2 argv, st') =>
            (builtin_sub argv).map (fun v => (.r1 v false, st'))
          | .ok _ => .error .panic
        | .Multiply =>
          match interp ft fuel (.args children) st with
          | .error e => .error e
          | .ok (.r2 argv, st') =>
            (builtin_mul argv).map (fun v => (.r1 v false, st'))
          | .ok _ => .error .panic
        | .Divide =>
          match interp ft fuel (.args children) st with
          | .error e => .error e
          | .ok (.r2 argv, st') =>
            (builtin_div argv).map (fun v => (.r1 v false, st'))
          | .ok _ => .error .panic
        | .GreaterThan =>
          match interp ft fuel (.args children) st with
          | .error e => .error e
          | .ok (.r2 argv, st') =>
            (builtin_greater_than argv).map (fun v => (.r1 v false, st'))
          | .ok _ => .error .panic
        | .LessThan =>
          match interp ft fuel (.args children) st with
          | .error e => .error e
          | .ok (.r2 argv, st') =>
            (builtin_less_than argv).map (fun v => (.r1 v false, st'))
          | .ok _ => .error .panic
        | .GreaterThanEqual =>
          match interp ft fuel (.args children) st with
          | .error e => .error e
          | .ok (.r2 argv, st') =>
            (builtin_greater_than_equal argv).map (fun v => (.r1 v false, st'))
          | .ok _ => .error .panic
        | .LessThanEqual =>
          match interp ft fuel (.args children) st with
          | .error e => .error e
          | .ok (.r2 argv, st') =>
            (builtin_less_than_equal argv).map (fun v => (.r1 v false, st'))
          | .ok _ => .error .panic
        | .Equality =>
          match interp ft fuel (.args children) st with
          | .error e => .error e
          | .ok (.r2 argv, st') =>
            (builtin_equality st'.heap argv).map (fun v => (.r1 v false, st'))
          | .ok _ => .error .panic
        | .Inequality =>
          match interp ft fuel (.args children) st with
          | .error e => .error e
          | .ok (.r2 argv, st') =>
            (builtin_inequality st'.heap argv).map (fun v => (.r1 v false, st'))
          | .ok _ => .error .panic
        | .LogicalAnd =>
          -- `builtin_logical_and` (src/interpreter/builtin.rs): the operand
          -- count is checked before anything is evaluated.
          match get_args2 children with
          | .error e => .error e
          | .ok (a, b) =>
            match interp ft fuel (.node a) st with
            | .error e => .error e
            | .ok (.r1 va _, st') =>
              match va with
              | .Boolean ab =>
                if ab = false then .ok (.r1 (.Boolean false) false, st')
                else
                  match interp ft fuel (.node b) st' with
                  | .error e => .error e
                  | .ok (.r1 vb _, st'') =>
                    match vb with
                    | .Boolean bb => .ok (.r1 (.Boolean bb) false, st'')
                    | _ => .error (.messageError
                        ("cannot and value of type " ++ vb.get_type_name))
                  | .ok _ => .error .panic
              | _ => .error (.messageError
                  ("cannot and value of type " ++ va.get_type_name))
            | .ok _ => .error .panic
        | .LogicalOr =>
          -- `builtin_logical_or` (src/interpreter/builtin.rs).
          match get_args2 children with
          | .error e => .error e
          | .ok (a, b) =>
            match interp ft fuel (.node a) st with
            | .error e => .error e
            | .ok (.r1 va _, st') =>
              match va with
              | .Boolean ab =>
                if ab = true then .ok (.r1 (.Boolean true) false, st')
                else
                  match interp ft fuel (.node b) st' with
                  | .error e => .error e
                  | .ok (.r1 vb _, st'') =>
                    match vb with
                    | .Boolean bb => .ok (.r1 (.Boolean bb) false, st'')
                    | _ => .error (.messageError
                        ("cannot or value of type " ++ vb.get_type_name))
                  | .ok _ => .error .panic
              | _ => .error (.messageError
                  ("cannot or value of type " ++ va.get_type_name))
            | .ok _ => .error .panic
        | .Indexing =>
          match interp ft fuel (.args children) st with
          | .error e => .error e
          | .ok (.r2 argv, st') =>
            (builtin_indexing st'.heap argv).map (fun v => (.r1 v false, st'))
          | .ok _ => .error .panic
        | .MemberAccess =>
          match children with
          | c0 :: c1 :: _ =>
            match interp ft fuel (.node c0) st with
            | .error e => .error e
            | .ok (.r1 v _, st') =>
              (builtin_member_access st'.heap v (memberText c1)).map
                (fun r => (.r1 r false, st'))
            | .ok _ => .error .panic
          | _ => .error .panic
      | .NumericValue value => .ok (.r1 (.Number value) false, st)
      | .IdentifierValue token =>
        if token = "True" then .ok (.r1 (.Boolean true) false, st)
        else if token = "False" then .ok (.r1 (.Boolean false) false, st)
        else
          match assocLookup st.env token with
          | some v => .ok (.r1 v false, st)
          | Option.none => .error (.genericError
              ("variable '" ++ token ++ "' does not exist"))
      | .ReturnStatement expression =>
        match expression with
        | some inner =>
          match interp ft fuel (.node inner) st with
          | .error e => .error e
          | .ok (.r1 v _, st') => .ok (.r1 v true, st')
          | .ok _ => .error .panic
        | Option.none => .ok (.r1 Value.none true, st)
      | .ForLoop loop_variable bound0 bound1 reverse block =>
        match interp ft fuel (.node bound0) st with
        | .error e => .error e
        | .ok (.r1 value0 _, st1) =>
          match interp ft fuel (.node bound1) st1 with
          | .error e => .error e
          | .ok (.r1 value1 _, st2) =>
            match value0 with
            | .Number q0 =>
              if q0.isInt = false then
                .error (.genericError "first bound is not an integer")
              else
                match value1 with
                | .Number q1 =>
                  if q1.isInt = false then
                    .error (.genericError "second bound is not an integer")
                  else
                    match interp ft fuel
                        (.forloop loop_variable q0.toInt q1.toInt reverse block) st2 with
                    | .error e => .error e
                    | .ok (_, st3) => .ok (.r1 Value.none false, st3)
                | _ => .error (.genericError "second bound is not a number")
            | _ => .error (.genericError "first bound is not a number")
          | .ok _ => .error .panic
        | .ok _ => .error .panic
      | .IfStatement ifs else_block => interp ft fuel (.ifclauses ifs else_block) st
      -- `Self::WhileLoop` and `Self::Function` have no arm: they hit the
      -- `_ => { dbg!(self); todo!() }` catch-all panic.
      | .WhileLoop _ _ => .error .panic
      | .Function _ _ _ => .error .panic
    | .stmts ts =>
      match ts with
      | [] => .ok (.r1 Value.none false, st)
      | s :: rest =>
        match interp ft fuel (.node s) st with
        | .error e => .error e
        | .ok (.r1 v flag, st') =>
          if flag then .ok (.r1 v flag, st')
          else
            match rest with
            | [] => .ok (.r1 v flag, st')
            | _ => interp ft fuel (.stmts rest) st'
        | .ok _ => .error .panic
    | .args ts =>
      match ts with
      | [] => .ok (.r2 [], st)
      | t :: rest =>
        match interp ft fuel (.node t) st with
        | .error e => .error e
        | .ok (.r1 v _, st') =>
          match interp ft fuel (.args rest) st' with
          | .error e => .error e
          | .ok (.r2 vs, st'') => .ok (.r2 (v :: vs), st'')
          | .ok _ => .error .panic
        | .ok _ => .error .panic
    | .mut t v =>
      match t with
      | .IdentifierValue token =>
        if token = "True" ∨ token = "False" then
          .error (.genericError "unable to assign to boolean")
        else
          .ok (.r1 Value.none false,
            { st with env := assocInsert st.env token v })
      | .Expr .Indexing children =>
        match interp ft fuel (.args children) st with
        | .error e => .error e
        | .ok (.r2 argv, st') =>
          match builtin_mutable_indexing st'.heap argv v with
          | .error e => .error e
          | .ok h' => .ok (.r1 Value.none false, { st' with heap := h' })
        | .ok _ => .error .panic
      | .Expr .MemberAccess children =>
        match children with
        | c0 :: c1 :: _ =>
          match interp ft fuel (.node c0) st with
          | .error e => .error e
          | .ok (.r1 bv _, st') =>
            match builtin_mutable_member_access st'.heap bv (memberText c1) v with
            | .error e => .error e
            | .ok h' => .ok (.r1 Value.none false, { st' with heap := h' })
          | .ok _ => .error .panic
        | _ => .error .panic
      | _ => .error (.genericError "unable to assign to immutable left hand side")
    | .call name argv =>
      -- `RunTime::execute_function`: builtins are tried first, in source
      -- order, then the user function table.
      if name = "AssertEqual" then
        (builtin_assert_eq st.heap argv).map (fun v => (.r1 v false, st))
      else if name = "Array" then
        let (v, h') := builtin_array st.heap argv
        .ok (.r1 v false, { st with heap := h' })
      else if name = "Print" then
        (builtin_print argv).map (fun v => (.r1 v false, st))
      else if name = "ceil" then
        (builtin_ceil argv).map (fun v => (.r1 v false, st))
      else if name = "floor" then
        (builtin_floor argv).map (fun v => (.r1 v false, st))
      else
        -- `RunTime::inner_execute_function` + `Function::execute`.
        match assocLookup ft name with
        | some f =>
          if argv.length ≠ f.arguments.length then
            .error (.argumentCountError f.arguments.length argv.length)
          else
            match interp ft fuel (.node f.block)
                { env := bindArgs f.arguments argv, heap := st.heap } with
            | .error e => .error e
            | .ok (.r1 v _, st') =>
              .ok (.r1 v false, { st with heap := st'.heap })
            | .ok _ => .error .panic
        | Option.none =>
          .error (.genericError ("function '" ++ name ++ "' not defined"))
    | .forloop var i target reverse block =>
      if (reverse = false ∧ i ≤ target) ∨ (reverse = true ∧ target ≤ i) then
        match interp ft fuel (.node block)
            { st with env := assocInsert st.env var (.Number (.ofInt i)) } with
        | .error e => .error e
        | .ok (_, st') =>
          -- the block's `(Value, bool)` result is discarded by the source
          interp ft fuel
            (.forloop var (if reverse then i - 1 else i + 1) target reverse block)
            st'
      else .ok (.r1 Value.none false, st)
    | .ifclauses ifs else_block =>
      match ifs with
      | [] =>
        match else_block with
        | some eb =>
          match interp ft fuel (.node eb) st with
          | .error e => .error e
          | .ok (_, st') => .ok (.r1 Value.none false, st')
        | Option.none => .ok (.r1 Value.none false, st)
      | (condition, block) :: rest =>
        match interp ft fuel (.node condition) st with
        | .error e => .error e
        | .ok (.r1 cv _, st') =>
          match cv with
          | .Boolean b =>
            if b then
              match interp ft fuel (.node block) st' with
              | .error e => .error e
              -- the block's result (and its Return flag) is discarded
              | .ok (_, st'') => .ok (.r1 Value.none false, st'')
            else interp ft fuel (.ifclauses rest else_block) st'
          | _ => .error (.genericError "condition is not a boolean")
        | .ok _ => .error .panic

end CLRS

namespace CLRS

/-- `ParseTreeNode::execute` entry point (projection of the dispatcher). -/
def execute (ft : FuncTable) (fuel : Nat) (t : PTree) (st : St) :
    Except Err ((Value × Bool) × St) :=
  match interp ft fuel (.node t) st with
  | .error e => .error e
  | .ok (.r1 v flag, st') => .ok ((v, flag), st')
  | .ok _ => .error .panic

/-- `RunTime::execute_function` entry point (projection of the dispatcher). -/
def execute_function (ft : FuncTable) (fuel : Nat) (name : String)
    (argv : List Value) (st : St) : Except Err (Value × St) :=
  match interp ft fuel (.call name argv) st with
  | .error e => .error e
  | .ok (.r1 v _, st') => .ok (v, st')
  | .ok _ => .error .panic

/-- `RunTime::new` (src/interpreter/context.rs): builds the function table
from the parsed `Function` nodes (the parser only produces `Function` nodes at
the top level; anything else would panic in `Function::new`). -/
def RunTimeNew (prog : List PTree) : FuncTable :=
  prog.foldl
    (fun ft p =>
      match p with
      | .Function name arguments block => assocInsert ft name ⟨arguments, block⟩
      | _ => ft)
    []

/-- `RunTime::inner_execute_function` (src/interpreter/context.rs): `Ok None`
when the function is undefined; checks the argument count against the
parameter count before executing. -/
def inner_execute_function (ft : FuncTable) (fuel : Nat) (func_name : String)
    (argv : List Value) : Except Err (Option Value) :=
  match assocLookup ft func_name with
  | Option.none => .ok Option.none
  | some f =>
    if argv.length ≠ f.arguments.length then
      .error (.argumentCountError f.arguments.length argv.length)
    else
      match execute ft fuel f.block { env := bindArgs f.arguments argv, heap := Heap.empty } with
      | .error e => .error e
      | .ok ((v, _), _) => .ok (some v)

/-- The `Execute` subcommand of main.rs: build the runtime from the parsed
program and run `Test` with no arguments. -/
def interpRun (fuel : Nat) (prog : List PTree) : Except Err (Option Value) :=
  inner_execute_function (RunTimeNew prog) fuel "Test" []

/-! ## The VM intermediate representation (src/compiler/instructions.rs) -/

/-- `VMVariable`: a variable reference that is either a source token or a
synthesized string (`temp$<n>`). -/
inductive VMVariable where
  | token (s : String)
  | custom (s : String)
deriving Repr, DecidableEq

/-- `VMVariable::extract_text`. -/
def VMVariable.extract_text : VMVariable → String
  | .token s => s
  | .custom s => s

/-- `VMVariable::get_token`. -/
def VMVariable.get_token : VMVariable → Option String
  | .token s => some s
  | .custom _ => Option.none

/-- `VMValue`: an IR value.  The `Option String` of `Value` is the optional
originating token (its text). -/
inductive VMValue where
  | MemberAccess (m a : VMValue)
  | Indexing (m i : VMValue)
  | Value (v : CLRS.Value) (tok : Option String)
  | Variable (v : VMVariable)
deriving Repr, DecidableEq

/-- `VMValue::get_token`. -/
def VMValue.get_token : VMValue → Option String
  | .MemberAccess v _ => v.get_token
  | .Indexing v _ => v.get_token
  | .Value _ t => t
  | .Variable v => v.get_token

/-- `VMBinaryOperation`. -/
inductive VMBinaryOperation where
  | Add
  | Subtract
  | Multiply
  | Divide
  | LessThan
  | GreaterThan
  | LessThanEqual
  | GreaterThanEqual
  | Equality
  | Inequality
deriving Repr, DecidableEq

/-- `TryFrom<ExpressionType> for VMBinaryOperation`. -/
def ExpressionType.toVMBinaryOperation : ExpressionType → Option VMBinaryOperation
  | .Add => some .Add
  | .Subtract => some .Subtract
  | .Multiply => some .Multiply
  | .Divide => some .Divide
  | .LessThan => some .LessThan
  | .GreaterThan => some .GreaterThan
  | .LessThanEqual => some .LessThanEqual
  | .GreaterThanEqual => some .GreaterThanEqual
  | .Equality => some .Equality
  | .Inequality => some .Inequality
  | _ => Option.none

/-- `VMInstructionType`. -/
inductive VMInstructionType where
  | Return (v : VMValue)
  | Assign (dest src : VMValue)
  | BinaryOperation (op : VMBinaryOperation) (dest : VMVariable) (a b : VMValue)
  | FunctionCall (name dest : VMVariable) (args : List VMValue)
  | Branch (cond : VMValue) (true_branch false_branch : Nat)
  | Goto (branch : Nat)
deriving Repr

/-- `VMFunction`: the `associated_line` of each instruction only feeds the
visualizer and is dropped; `next_name` is the temporary counter. -/
structure VMFunction where
  name : String
  arguments : List String
  instructions : List VMInstructionType
  next_name : Nat
deriving Repr

/-- `TryFrom<VMValue> for VMVariable` (src/compiler/instructions.rs): a
`Value` with a token is an "expected identifier or variable" error, a
`Variable` converts, everything else is a `todo!` panic. -/
def VMValue.tryIntoVariable : VMValue → Except Err VMVariable
  | .Value _ (some _) => .error (.genericError "expected identifier or variable")
  | .Variable v => .ok v
  | _ => .error .panic

/-! ## Lowering (src/compiler/parsetree.rs) -/

/-- `VMFunction::next_temp_variable`. -/
def VMFunction.next_temp_variable (f : VMFunction) : VMVariable × VMFunction :=
  (VMVariable.custom ("temp$" ++ toString f.next_name),
    { f with next_name := f.next_name + 1 })

/-- `VMFunction::next_instruction_index`. -/
def VMFunction.next_instruction_index (f : VMFunction) : Nat :=
  f.instructions.length

/-- `VMFunction::add_instruction_type` (the source line argument is
dropped). -/
def VMFunction.add_instruction_type (f : VMFunction) (i : VMInstructionType) :
    VMFunction :=
  { f with instructions := f.instructions ++ [i] }

/-- Fix-up helper: patch the false target of the `Branch` at `idx`
(`if let VMInstructionType::Branch(_, _, inst) = ... else unimplemented!()`). -/
def VMFunction.fixBranchFalse (f : VMFunction) (idx target : Nat) :
    Except Err VMFunction :=
  match f.instructions.get? idx with
  | some (.Branch c t _) =>
    .ok { f with instructions := f.instructions.set idx (.Branch c t target) }
  | _ => .error .panic

/-- Fix-up helper: patch the true target of the `Branch` at `idx`. -/
def VMFunction.fixBranchTrue (f : VMFunction) (idx target : Nat) :
    Except Err VMFunction :=
  match f.instructions.get? idx with
  | some (.Branch c _ e) =>
    .ok { f with instructions := f.instructions.set idx (.Branch c target e) }
  | _ => .error .panic

/-- Fix-up helper: patch the target of the `Goto` at `idx`. -/
def VMFunction.fixGoto (f : VMFunction) (idx target : Nat) :
    Except Err VMFunction :=
  match f.instructions.get? idx with
  | some (.Goto _) =>
    .ok { f with instructions := f.instructions.set idx (.Goto target) }
  | _ => .error .panic

end CLRS

namespace CLRS

/-- Request type for the fuelled lowering dispatcher, mirroring the recursion
structure of `VMFunction::compile` (src/compiler/parsetree.rs): `node` = one
`compile` call, `nodes` = the `children.iter().map(compile).collect()`
pattern, `ifclauses` = the clause loop of the `IfStatement` arm (returning the
`skip_to_end` indices). -/
inductive CReq where
  | node (t : PTree)
  | nodes (ts : List PTree)
  | ifclauses (ifs : List (PTree × PTree))

inductive CRes where
  | c1 (v : Option VMValue)
  | c2 (vs : List (Option VMValue))
  | c3 (skips : List Nat)
deriving Repr

/-- `Option::unwrap` on the result of a child compilation. -/
def unwrapVMValue : Option VMValue → Except Err VMValue
  | some v => .ok v
  | Option.none => .error .panic

/-- `VMFunction::compile` (src/compiler/parsetree.rs), translated arm by arm.
The recursion is fuelled to keep the definition kernel-computable. -/
def compileStep : Nat → CReq → VMFunction → Except Err (CRes × VMFunction)
  | 0, _, _ => .error .outOfFuel
  | fuel + 1, req, f =>
    match req with
    | .node t =>
      match t with
      | .Block statements =>
        match compileStep fuel (.nodes statements) f with
        | .error e => .error e
        | .ok (_, f') => .ok (.c1 Option.none, f')
      | .NumericValue value =>
        -- `(Value::Number(*value), token.clone()).into()`: the token text of a
        -- numeric literal is approximated by rendering its value
        .ok (.c1 (some (.Value (.Number value) (some (toString value)))), f)
      | .IdentifierValue token =>
        .ok (.c1 (some (.Variable (.token token))), f)
      | .ReturnStatement expression =>
        match expression with
        | some expr =>
          match compileStep fuel (.node expr) f with
          | .error e => .error e
          | .ok (.c1 child, f') =>
            match unwrapVMValue child with
            | .error e => .error e
            | .ok c => .ok (.c1 Option.none, f'.add_instruction_type (.Return c))
          | .ok _ => .error .panic
        | Option.none =>
          .ok (.c1 Option.none,
            f.add_instruction_type (.Return (.Value Value.none Option.none)))
      | .Expr ety children =>
        match ety with
        | .Assignment =>
          match children with
          | c0 :: c1 :: _ =>
            match compileStep fuel (.node c0) f with
            | .error e => .error e
            | .ok (.c1 child_a, f1) =>
              match compileStep fuel (.node c1) f1 with
              | .error e => .error e
              | .ok (.c1 child_b, f2) =>
                match child_a, child_b with
                | some variable_a, some variable_b =>
                  .ok (.c1 child_b,
                    f2.add_instruction_type (.Assign variable_a variable_b))
                | _, _ => .error .panic
              | .ok _ => .error .panic
            | .ok _ => .error .panic
          | _ => .error .panic
        | .FunctionCall =>
          match compileStep fuel (.nodes children) f with
          | .error e => .error e
          | .ok (.c2 values, f1) =>
            match values with
            | [] => .error .panic
            | v0 :: restv =>
              match unwrapVMValue v0 with
              | .error e => .error e
              | .ok vv =>
                match vv.tryIntoVariable with
                | .error e => .error e
                | .ok func_name =>
                  match restv.mapM unwrapVMValue with
                  | .error e => .error e
                  | .ok args =>
                    let (v, f2) := f1.next_temp_variable
                    .ok (.c1 (some (.Variable v)),
                      f2.add_instruction_type (.FunctionCall func_name v args))
          | .ok _ => .error .panic
        | .MemberAccess =>
          match children with
          | c0 :: c1 :: _ =>
            match compileStep fuel (.node c0) f with
            | .error e => .error e
            | .ok (.c1 value?, f1) =>
              match unwrapVMValue value? with
              | .error e => .error e
              | .ok value =>
                match compileStep fuel (.node c1) f1 with
                | .error e => .error e
                | .ok (.c1 key?, f2) =>
                  match unwrapVMValue key? with
                  | .error e => .error e
                  | .ok key => .ok (.c1 (some (.MemberAccess value key)), f2)
                | .ok _ => .error .panic
            | .ok _ => .error .panic
          | _ => .error .panic
        | .Indexing =>
          match children with
          | c0 :: c1 :: _ =>
            match compileStep fuel (.node c0) f with
            | .error e => .error e
            | .ok (.c1 value?, f1) =>
              match unwrapVMValue value? with
              | .error e => .error e
              | .ok value =>
                match compileStep fuel (.node c1) f1 with
                | .error e => .error e
                | .ok (.c1 key?, f2) =>
                  match unwrapVMValue key? with
                  | .error e => .error e
                  | .ok key => .ok (.c1 (some (.Indexing value key)), f2)
                | .ok _ => .error .panic
            | .ok _ => .error .panic
          | _ => .error .panic
        | .LogicalAnd =>
          match children with
          | c0 :: c1 :: _ =>
            let (v, f0) := f.next_temp_variable
            match compileStep fuel (.node c0) f0 with
            | .error e => .error e
            | .ok (.c1 a?, f1) =>
              match unwrapVMValue a? with
              | .error e => .error e
              | .ok a =>
                let first_compare := f1.next_instruction_index
                let f2 := f1.add_instruction_type (.Branch a (first_compare + 1) 0)
                match compileStep fuel (.node c1) f2 with
                | .error e => .error e
                | .ok (.c1 b?, f3) =>
                  match unwrapVMValue b? with
                  | .error e => .error e
                  | .ok b =>
                    let f4 := f3.add_instruction_type (.Assign (.Variable v) b)
                    let goto_end := f4.next_instruction_index
                    let f5 := f4.add_instruction_type (.Goto 0)
                    let rejoin := f5.next_instruction_index
                    let f6 := f5.add_instruction_type (.Assign (.Variable v) a)
                    let after := f6.next_instruction_index
                    match f6.fixGoto goto_end after with
                    | .error e => .error e
                    | .ok f7 =>
                      match f7.fixBranchFalse first_compare rejoin with
                      | .error e => .error e
                      | .ok f8 => .ok (.c1 (some (.Variable v)), f8)
                | .ok _ => .error .panic
            | .ok _ => .error .panic
          | _ => .error .panic
        | .LogicalOr =>
          match children with
          | c0 :: c1 :: _ =>
            let (v, f0) := f.next_temp_variable
            match compileStep fuel (.node c0) f0 with
            | .error e => .error e
            | .ok (.c1 a?, f1) =>
              match unwrapVMValue a? with
              | .error e => .error e
              | .ok a =>
                let first_compare := f1.next_instruction_index
                let f2 := f1.add_instruction_type (.Branch a 0 (first_compare + 1))
                match compileStep fuel (.node c1) f2 with
                | .error e => .error e
                | .ok (.c1 b?, f3) =>
                  match unwrapVMValue b? with
                  | .error e => .error e
                  | .ok b =>
                    let f4 := f3.add_instruction_type (.Assign (.Variable v) b)
                    let goto_end := f4.next_instruction_index
                    let f5 := f4.add_instruction_type (.Goto 0)
                    let rejoin := f5.next_instruction_index
                    let f6 := f5.add_instruction_type (.Assign (.Variable v) a)
                    let after := f6.next_instruction_index
                    match f6.fixGoto goto_end after with
                    | .error e => .error e
                    | .ok f7 =>
                      match f7.fixBranchTrue first_compare rejoin with
                      | .error e => .error e
                      | .ok f8 => .ok (.c1 (some (.Variable v)), f8)
                | .ok _ => .error .panic
            | .ok _ => .error .panic
          | _ => .error .panic
        | other =>
          -- the catch-all `Expression` arm: all children are compiled, then
          -- the expression type must convert to a binary operation
          match compileStep fuel (.nodes children) f with
          | .error e => .error e
          | .ok (.c2 values, f1) =>
            match other.toVMBinaryOperation with
            | some bin_op =>
              match values with
              | a? :: b? :: _ =>
                match unwrapVMValue a? with
                | .error e => .error e
                | .ok a =>
                  match unwrapVMValue b? with
                  | .error e => .error e
                  | .ok b =>
                    let (v, f2) := f1.next_temp_variable
                    .ok (.c1 (some (.Variable v)),
                      f2.add_instruction_type (.BinaryOperation bin_op v a b))
              | _ => .error .panic
            | Option.none => .error .panic
          | .ok _ => .error .panic
      | .IfStatement ifs else_block =>
        match compileStep fuel (.ifclauses ifs) f with
        | .error e => .error e
        | .ok (.c3 skip_to_end, f1) =>
          let elseResult :=
            match else_block with
            | some eb => compileStep fuel (.node eb) f1
            | Option.none => .ok (.c1 Option.none, f1)
          match elseResult with
          | .error e => .error e
          | .ok (_, f2) =>
            let last := f2.next_instruction_index
            match skip_to_end.foldlM
                (fun (fc : VMFunction) (i : Nat) => fc.fixGoto i last) f2 with
            | .error e => .error e
            | .ok f3 => .ok (.c1 Option.none, f3)
        | .ok _ => .error .panic
      | .ForLoop loop_variable bound0 bound1 reverse block =>
        match compileStep fuel (.node bound0) f with
        | .error e => .error e
        | .ok (.c1 b0?, f1) =>
          match unwrapVMValue b0? with
          | .error e => .error e
          | .ok b0 =>
            match compileStep fuel (.node bound1) f1 with
            | .error e => .error e
            | .ok (.c1 b1?, f2) =>
              match unwrapVMValue b1? with
              | .error e => .error e
              | .ok b1 =>
                let loopv := VMVariable.token loop_variable
                let direction : VMBinaryOperation :=
                  if reverse then .Subtract else .Add
                let comparison : VMBinaryOperation :=
                  if reverse then .GreaterThanEqual else .LessThanEqual
                let f3 := f2.add_instruction_type (.Assign (.Variable loopv) b0)
                let start := f3.next_instruction_index
                let (v, f4) := f3.next_temp_variable
                let f5 := f4.add_instruction_type
                  (.BinaryOperation comparison v (.Variable loopv) b1)
                let compare_line := f5.next_instruction_index
                let f6 := f5.add_instruction_type
                  (.Branch (.Variable v) (compare_line + 1) 0)
                match compileStep fuel (.node block) f6 with
                | .error e => .error e
                | .ok (_, f7) =>
                  let f8 := f7.add_instruction_type
                    (.BinaryOperation direction loopv (.Variable loopv)
                      (.Value (.Number 1) Option.none))
                  let f9 := f8.add_instruction_type (.Goto start)
                  let after := f9.next_instruction_index
                  match f9.fixBranchFalse compare_line after with
                  | .error e => .error e
                  | .ok f10 => .ok (.c1 Option.none, f10)
            | .ok _ => .error .panic
        | .ok _ => .error .panic
      | .WhileLoop condition block =>
        let start := f.next_instruction_index
        match compileStep fuel (.node condition) f with
        | .error e => .error e
        | .ok (.c1 c?, f1) =>
          match unwrapVMValue c? with
          | .error e => .error e
          | .ok c =>
            let compare_line := f1.next_instruction_index
            let f2 := f1.add_instruction_type (.Branch c (compare_line + 1) 0)
            match compileStep fuel (.node block) f2 with
            | .error e => .error e
            | .ok (_, f3) =>
              let f4 := f3.add_instruction_type (.Goto start)
              let after := f4.next_instruction_index
              match f4.fixBranchFalse compare_line after with
              | .error e => .error e
              | .ok f5 => .ok (.c1 Option.none, f5)
        | .ok _ => .error .panic
      | .Function _ _ _ => .error .panic
    | .nodes ts =>
      match ts with
      | [] => .ok (.c2 [], f)
      | t :: rest =>
        match compileStep fuel (.node t) f with
        | .error e => .error e
        | .ok (.c1 v, f1) =>
          match compileStep fuel (.nodes rest) f1 with
          | .error e => .error e
          | .ok (.c2 vs, f2) => .ok (.c2 (v :: vs), f2)
          | .ok _ => .error .panic
        | .ok _ => .error .panic
    | .ifclauses ifs =>
      match ifs with
      | [] => .ok (.c3 [], f)
      | (condition, block) :: rest =>
        match compileStep fuel (.node condition) f with
        | .error e => .error e
        | .ok (.c1 cond?, f1) =>
          match unwrapVMValue cond? with
          | .error e => .error e
          | .ok cond =>
            let prev := f1.next_instruction_index
            let f2 := f1.add_instruction_type (.Branch cond (prev + 1) 0)
            match compileStep fuel (.node block) f2 with
            | .error e => .error e
            | .ok (_, f3) =>
              let skip := f3.next_instruction_index
              let f4 := f3.add_instruction_type (.Goto 0)
              let next := f4.next_instruction_index
              match f4.fixBranchFalse prev next with
              | .error e => .error e
              | .ok f5 =>
                match compileStep fuel (.ifclauses rest) f5 with
                | .error e => .error e
                | .ok (.c3 skips, f6) => .ok (.c3 (skip :: skips), f6)
                | .ok _ => .error .panic
        | .ok _ => .error .panic

/-- `compile_function` (src/compiler/parsetree.rs): compile the body and
append the implicit `Return(None)`. -/
def compile_function (fuel : Nat) (parsetree : PTree) : Except Err VMFunction :=
  match parsetree with
  | .Function name arguments block =>
    let f0 : VMFunction :=
      { name := name, arguments := arguments, instructions := [], next_name := 0 }
    match compileStep fuel (.node block) f0 with
    | .error e => .error e
    | .ok (_, f1) =>
      .ok (f1.add_instruction_type (.Return (.Value Value.none Option.none)))
  | _ => .error .panic

/-- Compile every top-level function of a program
(`parse_tree.into_iter().map(compile_function).collect()`, main.rs). -/
def compileProgram (fuel : Nat) (prog : List PTree) :
    Except Err (List VMFunction) :=
  prog.mapM (compile_function fuel)

end CLRS

namespace CLRS

/-- `UpdateData` (src/virtualmachine/runtime.rs). -/
structure UpdateData where
  var : String
  index : Option Nat
deriving Repr, DecidableEq

/-- `UpdateData::variable`. -/
def UpdateData.variable (name : String) : UpdateData := ⟨name, Option.none⟩

/-- `UpdateData::indexed`. -/
def UpdateData.indexed (name : String) (index : Nat) : UpdateData :=
  ⟨name, some index⟩

/-- `ExecutionFrame` (src/virtualmachine/runtime.rs): `line` is the
instruction cursor.  The `last_line`/`last_lines` source-line bookkeeping only
feeds the visualizer and is dropped.  (`vars` is the source's `variables`
field; `variables` is a reserved word in Lean.) -/
structure ExecutionFrame where
  vars : List (String × Value)
  function : VMFunction
  line : Nat
  last_updated : List UpdateData
  last_read : List UpdateData
  return_value : Option Value
  passed_return : Option Value
deriving Repr

/-- `ExecutionFrame::new`: parameters are bound positionally by
`arg_names.into_iter().zip(arguments.into_iter())` — with no argument-count
check, extra arguments are dropped and missing parameters stay unbound. -/
def ExecutionFrame.new (function : VMFunction) (arguments : List Value) :
    ExecutionFrame :=
  { vars :=
      (function.arguments.zip arguments).foldl
        (fun e p => assocInsert e p.1 p.2) [],
    function := function,
    line := 0,
    last_updated := [],
    last_read := [],
    return_value := Option.none,
    passed_return := Option.none }

/-- `ExecutionFrame::assign_to_variable`. -/
def ExecutionFrame.assign_to_variable (fr : ExecutionFrame) (var_name : String)
    (value : Value) : ExecutionFrame :=
  { fr with
    vars := assocInsert fr.vars var_name value,
    last_updated := fr.last_updated ++ [UpdateData.variable var_name] }

/-- `ExecutionFrame::touch_variable`. -/
def ExecutionFrame.touch_variable (fr : ExecutionFrame) (var_name : String) :
    ExecutionFrame :=
  { fr with last_updated := fr.last_updated ++ [UpdateData.variable var_name] }

/-- `ExecutionFrame::touch_variable_index`. -/
def ExecutionFrame.touch_variable_index (fr : ExecutionFrame)
    (var_name : String) (index : Nat) : ExecutionFrame :=
  { fr with last_updated := fr.last_updated ++ [UpdateData.indexed var_name index] }

/-- `ExecutionFrame::read_variable_index`. -/
def ExecutionFrame.read_variable_index (fr : ExecutionFrame)
    (var_name : String) (index : Nat) : ExecutionFrame :=
  { fr with last_read := fr.last_read ++ [UpdateData.indexed var_name index] }

/-- `ExecutionFrame::read_variable`: look the name up in the variable map;
when `report` holds, push a read-audit entry.  `True` and `False` get no
special treatment here (unlike the tree interpreter). -/
def ExecutionFrame.read_variable (fr : ExecutionFrame) (var_name : String)
    (report : Bool) : Except Err (Value × ExecutionFrame) :=
  match assocLookup fr.vars var_name with
  | some v =>
    .ok (v,
      if report then
        { fr with last_read := fr.last_read ++ [UpdateData.variable var_name] }
      else fr)
  | Option.none =>
    .error (.genericError ("variable '" ++ var_name ++ "' is not defined"))

/-- `Option::unwrap` on a token (`a.get_token().unwrap()`). -/
def unwrapToken : Option String → Except Err String
  | some t => .ok t
  | Option.none => .error .panic

/-- `ExecutionFrame::load_value` (src/virtualmachine/runtime.rs).  Reads never
modify the heap or the variable map, only the audit lists. -/
def ExecutionFrame.load_value (h : Heap) :
    ExecutionFrame → VMValue → Bool → Except Err (Value × ExecutionFrame)
  | fr, .MemberAccess m a, report =>
    match unwrapToken a.get_token with
    | .error e => .error e
    | .ok t =>
      match ExecutionFrame.load_value h fr m report with
      | .error e => .error e
      | .ok (mv, fr1) =>
        let fr2 := if report then fr1.touch_variable t else fr1
        (builtin_member_access h mv t).map (fun v => (v, fr2))
  | fr, .Indexing m i, report =>
    match unwrapToken m.get_token with
    | .error e => .error e
    | .ok t =>
      match ExecutionFrame.load_value h fr m false with
      | .error e => .error e
      | .ok (mv, fr1) =>
        match ExecutionFrame.load_value h fr1 i report with
        | .error e => .error e
        | .ok (iv, fr2) =>
          let fr3 :=
            match iv with
            | .Number n =>
              if report then fr2.read_variable_index t (F64.toUsize n) else fr2
            | _ => fr2
          (builtin_indexing h [mv, iv]).map (fun v => (v, fr3))
  | fr, .Value v _, _ => .ok (v, fr)
  | fr, .Variable v, report => fr.read_variable v.extract_text report

/-- `ExecutionFrame::store_value_into` (src/virtualmachine/runtime.rs). -/
def ExecutionFrame.store_value_into (h : Heap) (fr : ExecutionFrame) :
    VMValue → Value → Except Err (ExecutionFrame × Heap)
  | .MemberAccess m i, to_store =>
    match unwrapToken m.get_token with
    | .error e => .error e
    | .ok t0 =>
      let fr1 := fr.touch_variable t0
      match ExecutionFrame.load_value h fr1 m false with
      | .error e => .error e
      | .ok (mv, fr2) =>
        match unwrapToken i.get_token with
        | .error e => .error e
        | .ok t =>
          (builtin_mutable_member_access h mv t to_store).map (fun h' => (fr2, h'))
  | .Indexing m i, to_store =>
    match unwrapToken m.get_token with
    | .error e => .error e
    | .ok t =>
      match ExecutionFrame.load_value h fr m false with
      | .error e => .error e
      | .ok (mv, fr1) =>
        match ExecutionFrame.load_value h fr1 i true with
        | .error e => .error e
        | .ok (iv, fr2) =>
          let fr3 :=
            match iv with
            | .Number n => fr2.touch_variable_index t (F64.toUsize n)
            | _ => fr2
          (builtin_mutable_indexing h [mv, iv] to_store).map (fun h' => (fr3, h'))
  | .Value _ _, _ => .error (.genericError "unable to assign to immutable value")
  | .Variable v, to_store => .ok (fr.assign_to_variable v.extract_text to_store, h)

/-- `ExecutionFrame::builtin_function_call` (src/virtualmachine/runtime.rs):
the VM's inline builtins (Print, Array, AssertEqual, floor, ceil). -/
def ExecutionFrame.builtin_function_call (h : Heap) (name : String)
    (arguments : List Value) : Except Err (Option (Value × Heap)) :=
  if name = "Print" then (builtin_print arguments).map (fun v => some (v, h))
  else if name = "Array" then
    let (v, h') := builtin_array h arguments
    .ok (some (v, h'))
  else if name = "AssertEqual" then
    (builtin_assert_eq h arguments).map (fun v => some (v, h))
  else if name = "floor" then (builtin_floor arguments).map (fun v => some (v, h))
  else if name = "ceil" then (builtin_ceil arguments).map (fun v => some (v, h))
  else .ok Option.none

/-- Evaluate a `FunctionCall` instruction's argument list (loads with
`report = true`, left to right). -/
def ExecutionFrame.loadArgs (h : Heap) :
    ExecutionFrame → List VMValue → Except Err (List Value × ExecutionFrame)
  | fr, [] => .ok ([], fr)
  | fr, a :: rest =>
    match ExecutionFrame.load_value h fr a true with
    | .error e => .error e
    | .ok (v, fr1) =>
      match ExecutionFrame.loadArgs h fr1 rest with
      | .error e => .error e
      | .ok (vs, fr2) => .ok (v :: vs, fr2)

/-- The binary-operation dispatch of `ExecutionFrame::single_step`. -/
def applyVMBinaryOperation (h : Heap) (op : VMBinaryOperation) (a b : Value) :
    Except Err Value :=
  match op with
  | .Add => builtin_add [a, b]
  | .Subtract => builtin_sub [a, b]
  | .Multiply => builtin_mul [a, b]
  | .Divide => builtin_div [a, b]
  | .LessThan => builtin_less_than [a, b]
  | .GreaterThan => builtin_greater_than [a, b]
  | .LessThanEqual => builtin_less_than_equal [a, b]
  | .GreaterThanEqual => builtin_greater_than_equal [a, b]
  | .Equality => builtin_equality h [a, b]
  | .Inequality => builtin_inequality h [a, b]

/-- `ExecutionFrame::single_step` (src/virtualmachine/runtime.rs): execute the
instruction under the cursor; `some (name, args)` signals a pending call into
a user-defined function. -/
def ExecutionFrame.single_step (fr : ExecutionFrame) (h : Heap) :
    Except Err (Option (String × List Value) × ExecutionFrame × Heap) :=
  match fr.function.instructions.get? fr.line with
  | Option.none => .error .panic
  | some instruction =>
    match instruction with
    | .Assign a b =>
      match fr.load_value h b true with
      | .error e => .error e
      | .ok (v, fr1) =>
        match fr1.store_value_into h a v with
        | .error e => .error e
        | .ok (fr2, h') => .ok (Option.none, { fr2 with line := fr2.line + 1 }, h')
    | .BinaryOperation op dest a b =>
      match fr.load_value h a true with
      | .error e => .error e
      | .ok (av, fr1) =>
        match fr1.load_value h b true with
        | .error e => .error e
        | .ok (bv, fr2) =>
          match applyVMBinaryOperation h op av bv with
          | .error e => .error e
          | .ok to_store =>
            match fr2.store_value_into h (.Variable dest) to_store with
            | .error e => .error e
            | .ok (fr3, h') =>
              .ok (Option.none, { fr3 with line := fr3.line + 1 }, h')
    | .Return value =>
      match fr.load_value h value true with
      | .error e => .error e
      | .ok (v, fr1) => .ok (Option.none, { fr1 with return_value := some v }, h)
    | .FunctionCall function dest arguments =>
      match fr.passed_return with
      | some returned_value =>
        match ExecutionFrame.store_value_into h
            { fr with passed_return := Option.none } (.Variable dest)
            returned_value with
        | .error e => .error e
        | .ok (fr1, h') => .ok (Option.none, { fr1 with line := fr1.line + 1 }, h')
      | Option.none =>
        match fr.loadArgs h arguments with
        | .error e => .error e
        | .ok (argument_values, fr1) =>
          match ExecutionFrame.builtin_function_call h function.extract_text
              argument_values with
          | .error e => .error e
          | .ok (some (v, h')) =>
            match fr1.store_value_into h' (.Variable dest) v with
            | .error e => .error e
            | .ok (fr2, h'') =>
              .ok (Option.none, { fr2 with line := fr2.line + 1 }, h'')
          | .ok Option.none =>
            .ok (some (function.extract_text, argument_values), fr1, h)
    | .Branch cond true_branch false_branch =>
      match fr.load_value h cond true with
      | .error e => .error e
      | .ok (cv, fr1) =>
        match cv with
        | .Boolean b =>
          .ok (Option.none,
            { fr1 with line := if b then true_branch else false_branch }, h)
        | _ => .error (.genericError "value is not a boolean")
    | .Goto branch => .ok (Option.none, { fr with line := branch }, h)

/-- `Runtime` (src/virtualmachine/runtime.rs) together with the ambient array
heap (the `Rc` cells).  The frame stack has its top at the head. -/
structure Runtime where
  functions : List (String × VMFunction)
  stack : List ExecutionFrame
  heap : Heap
deriving Repr

/-- `Runtime::load`. -/
def Runtime.load (functions : List VMFunction) : Runtime :=
  { functions := functions.foldl (fun m f => assocInsert m f.name f) [],
    stack := [],
    heap := Heap.empty }

/-- `Runtime::add_stack_frame` (the `last_lines` snapshot only feeds the
visualizer and is dropped). -/
def Runtime.add_stack_frame (rt : Runtime) (function_name : String)
    (arguments : List Value) : Except Err Runtime :=
  match assocLookup rt.functions function_name with
  | some f =>
    .ok { rt with stack := ExecutionFrame.new f arguments :: rt.stack }
  | Option.none =>
    .error (.genericError ("function '" ++ function_name ++ "' not defined"))

/-- `Runtime::start_execution`. -/
def Runtime.start_execution (rt : Runtime) (function_name : String) :
    Except Err Runtime :=
  match assocLookup rt.functions function_name with
  | some f =>
    .ok { rt with stack := ExecutionFrame.new f [] :: rt.stack }
  | Option.none =>
    .error (.genericError ("function '" ++ function_name ++ "' not defined"))

/-- `Runtime::single_step`: pop finished frames (handing the return value to
the caller's `passed_return` slot and recursing), else step the top frame and
push a new frame on a pending-call signal.  The `bool` result (did the source
line change) only drives the visualizer and is dropped.  The recursion of the
pop branch is fuelled; fuel `stack.length + 1` always suffices. -/
def Runtime.single_step : Nat → Runtime → Except Err Runtime
  | 0, _ => .error .outOfFuel
  | fuel + 1, rt =>
    match rt.stack with
    | [] => .ok rt
    | top :: rest =>
      match top.return_value with
      | some value =>
        let rest' :=
          match rest with
          | [] => []
          | new_last :: rs => { new_last with passed_return := some value } :: rs
        Runtime.single_step fuel { rt with stack := rest' }
      | Option.none =>
        match top.single_step rt.heap with
        | .error e => .error e
        | .ok (some (name, args), top', h') =>
          Runtime.add_stack_frame { rt with stack := top' :: rest, heap := h' }
            name args
        | .ok (Option.none, top', h') =>
          .ok { rt with stack := top' :: rest, heap := h' }

/-- `Runtime::is_done`. -/
def Runtime.is_done (rt : Runtime) : Bool := rt.stack.isEmpty

/-- Drive `single_step` to completion (the VMRun loop of main.rs steps until
`is_done`; the program's result is the value held by the last frame at the
moment it is about to be popped, which the visualizer displays as that
frame's return value). -/
def vmRunLoop : Nat → Runtime → Except Err Value
  | 0, _ => .error .outOfFuel
  | fuel + 1, rt =>
    match rt.stack with
    | [] => .error (.genericError "execution finished without a return value")
    | [f] =>
      match f.return_value with
      | some v => .ok v
      | Option.none =>
        match Runtime.single_step (rt.stack.length + 1) rt with
        | .error e => .error e
        | .ok rt' => vmRunLoop fuel rt'
    | _ =>
      match Runtime.single_step (rt.stack.length + 1) rt with
      | .error e => .error e
      | .ok rt' => vmRunLoop fuel rt'

/-- The VMRun subcommand end to end: lower every function, load them, start
`Test`, and run to completion. -/
def vmRunProgram (cfuel rfuel : Nat) (prog : List PTree) : Except Err Value :=
  match compileProgram cfuel prog with
  | .error e => .error e
  | .ok functions =>
    match (Runtime.load functions).start_execution "Test" with
    | .error e => .error e
    | .ok rt => vmRunLoop rfuel rt

end CLRS

namespace CLRS

/-- `TokenData` (src/tokenizer/token.rs); a numeric literal carries its
parsed value (the text-to-`f64` conversion of `parse_value` is not
modelled). -/
inductive TokenData where
  | Identifier (s : String)
  | NumericLiteral (q : F64)
  | Symbol (s : String)
  | Indentation (s : String)
  | EndOfFile
deriving Repr, DecidableEq

/-- `ParserContext` state (src/parser/context.rs) as far as expression parsing
needs it: the token stream and the diagnostics accumulator. -/
structure ParserSt where
  tokens : List TokenData
  errors : List String
  failed : Bool
deriving Repr, DecidableEq

def ParserSt.peek (st : ParserSt) : Option TokenData := st.tokens.head?

def ParserSt.next (st : ParserSt) : Option TokenData × ParserSt :=
  match st.tokens with
  | [] => (Option.none, st)
  | t :: rest => (some t, { st with tokens := rest })

/-- `ParserContext::add_error` (all errors reached below have severity
`Error`, so `failed` is always set). -/
def ParserSt.add_error (st : ParserSt) (msg : String) : ParserSt :=
  { st with errors := st.errors ++ [msg], failed := true }

/-- `ParserContext::consume_if`. -/
def ParserSt.consume_if (st : ParserSt) (predicate : TokenData → Bool) :
    Option TokenData × ParserSt :=
  match st.peek with
  | some t => if predicate t then st.next else (Option.none, st)
  | Option.none => (Option.none, st)

/-- `ParserContext::optional_consume_number`. -/
def ParserSt.optional_consume_number (st : ParserSt) :
    Option TokenData × ParserSt :=
  st.consume_if (fun t => match t with | .NumericLiteral _ => true | _ => false)

/-- `ParserContext::optional_consume_identifier`. -/
def ParserSt.optional_consume_identifier (st : ParserSt) :
    Option TokenData × ParserSt :=
  st.consume_if (fun t => match t with | .Identifier _ => true | _ => false)

/-- `ParserContext::optional_consume_identifier_value`. -/
def ParserSt.optional_consume_identifier_value (st : ParserSt)
    (identifier : String) : Option TokenData × ParserSt :=
  st.consume_if (fun t => match t with
    | .Identifier s => s = identifier
    | _ => false)

/-- `ParserContext::optional_consume_symbol`. -/
def ParserSt.optional_consume_symbol (st : ParserSt) (symbol : String) :
    Option TokenData × ParserSt :=
  st.consume_if (fun t => match t with
    | .Symbol s => s = symbol
    | _ => false)

/-- `ParserContext::enforce_consume_symbol`. -/
def ParserSt.enforce_consume_symbol (st : ParserSt) (symbol : String) :
    Option TokenData × ParserSt :=
  match st.optional_consume_symbol symbol with
  | (some t, st') => (some t, st')
  | (Option.none, st') =>
    match st'.peek with
    | some _ =>
      (Option.none, st'.add_error ("expected symbol '" ++ symbol ++ "'"))
    | Option.none => (Option.none, st')

/-- `ParserContext::expect_token`. -/
def ParserSt.expect_token (st : ParserSt) : Option TokenData × ParserSt :=
  match st.next with
  | (some t, st') =>
    if t = .EndOfFile then
      (Option.none, st'.add_error "unexpected end of file while parsing")
    else (some t, st')
  | (Option.none, st') => (Option.none, st')

/-- Requests of the fuelled expression-parser dispatcher, one per parse
function of src/parser/expression.rs (`postfixLoop` is the `loop` inside
`parse_postfix_expression`, `callArgs` the argument-list loop of its
call arm). -/
inductive PReq where
  | expr
  | assign
  | lor
  | land
  | eq
  | cmp
  | add
  | mul
  | postfixExpr
  | value
  | postfixLoop (inner : PTree)
  | callArgs (acc : List PTree)

inductive PRes where
  | p1 (t : Option PTree)
  | p2 (ts : Option (List PTree))

/-- The recursive-descent expression parser
(src/parser/expression.rs), translated function by function.  Each level is
right-recursive; failure returns `none` with diagnostics recorded in the
state. -/
def parseStep : Nat → PReq → ParserSt → PRes × ParserSt
  | 0, _, st => (.p1 Option.none, st.add_error "model: parser out of fuel")
  | fuel + 1, req, st =>
    match req with
    | .expr => parseStep fuel .assign st
    | .assign =>
      match parseStep fuel .lor st with
      | (.p1 (some left), st1) =>
        match st1.optional_consume_symbol "=" with
        | (some _, st2) =>
          match parseStep fuel .assign st2 with
          | (.p1 (some right), st3) =>
            (.p1 (some (.Expr .Assignment [left, right])), st3)
          | (_, st3) => (.p1 Option.none, st3)
        | (Option.none, st2) => (.p1 (some left), st2)
      | (_, st1) => (.p1 Option.none, st1)
    | .lor =>
      match parseStep fuel .land st with
      | (.p1 (some left), st1) =>
        match st1.optional_consume_identifier_value "or" with
        | (some _, st2) =>
          match parseStep fuel .lor st2 with
          | (.p1 (some right), st3) =>
            (.p1 (some (.Expr .LogicalOr [left, right])), st3)
          | (_, st3) => (.p1 Option.none, st3)
        | (Option.none, st2) => (.p1 (some left), st2)
      | (_, st1) => (.p1 Option.none, st1)
    | .land =>
      match parseStep fuel .eq st with
      | (.p1 (some left), st1) =>
        match st1.optional_consume_identifier_value "and" with
        | (some _, st2) =>
          match parseStep fuel .land st2 with
          | (.p1 (some right), st3) =>
            (.p1 (some (.Expr .LogicalAnd [left, right])), st3)
          | (_, st3) => (.p1 Option.none, st3)
        | (Option.none, st2) => (.p1 (some left), st2)
      | (_, st1) => (.p1 Option.none, st1)
    | .eq =>
      match parseStep fuel .cmp st with
      | (.p1 (some left), st1) =>
        match st1.optional_consume_symbol "==" with
        | (some _, st2) =>
          match parseStep fuel .eq st2 with
          | (.p1 (some right), st3) =>
            (.p1 (some (.Expr .Equality [left, right])), st3)
          | (_, st3) => (.p1 Option.none, st3)
        | (Option.none, st2) =>
          match st2.optional_consume_symbol "!=" with
          | (some _, st3) =>
            match parseStep fuel .eq st3 with
            | (.p1 (some right), st4) =>
              (.p1 (some (.Expr .Inequality [left, right])), st4)
            | (_, st4) => (.p1 Option.none, st4)
          | (Option.none, st3) => (.p1 (some left), st3)
      | (_, st1) => (.p1 Option.none, st1)
    | .cmp =>
      match parseStep fuel .add st with
      | (.p1 (some left), st1) =>
        match st1.optional_consume_symbol "<" with
        | (some _, st2) =>
          match parseStep fuel .cmp st2 with
          | (.p1 (some right), st3) =>
            (.p1 (some (.Expr .LessThan [left, right])), st3)
          | (_, st3) => (.p1 Option.none, st3)
        | (Option.none, st2) =>
          match st2.optional_consume_symbol ">" with
          | (some _, st3) =>
            match parseStep fuel .cmp st3 with
            | (.p1 (some right), st4) =>
              (.p1 (some (.Expr .GreaterThan [left, right])), st4)
            | (_, st4) => (.p1 Option.none, st4)
          | (Option.none, st3) =>
            match st3.optional_consume_symbol "<=" with
            | (some _, st4) =>
              match parseStep fuel .cmp st4 with
              | (.p1 (some right), st5) =>
                (.p1 (some (.Expr .LessThanEqual [left, right])), st5)
              | (_, st5) => (.p1 Option.none, st5)
            | (Option.none, st4) =>
              match st4.optional_consume_symbol ">=" with
              | (some _, st5) =>
                match parseStep fuel .cmp st5 with
                | (.p1 (some right), st6) =>
                  (.p1 (some (.Expr .GreaterThanEqual [left, right])), st6)
                | (_, st6) => (.p1 Option.none, st6)
              | (Option.none, st5) => (.p1 (some left), st5)
      | (_, st1) => (.p1 Option.none, st1)
    | .add =>
      match parseStep fuel .mul st with
      | (.p1 (some left), st1) =>
        match st1.optional_consume_symbol "+" with
        | (some _, st2) =>
          match parseStep fuel .add st2 with
          | (.p1 (some right), st3) =>
            (.p1 (some (.Expr .Add [left, right])), st3)
          | (_, st3) => (.p1 Option.none, st3)
        | (Option.none, st2) =>
          match st2.optional_consume_symbol "-" with
          | (some _, st3) =>
            match parseStep fuel .add st3 with
            | (.p1 (some right), st4) =>
              (.p1 (some (.Expr .Subtract [left, right])), st4)
            | (_, st4) => (.p1 Option.none, st4)
          | (Option.none, st3) => (.p1 (some left), st3)
      | (_, st1) => (.p1 Option.none, st1)
    | .mul =>
      match parseStep fuel .postfixExpr st with
      | (.p1 (some left), st1) =>
        match st1.optional_consume_symbol "*" with
        | (some _, st2) =>
          match parseStep fuel .mul st2 with
          | (.p1 (some right), st3) =>
            (.p1 (some (.Expr .Multiply [left, right])), st3)
          | (_, st3) => (.p1 Option.none, st3)
        | (Option.none, st2) =>
          match st2.optional_consume_symbol "/" with
          | (some _, st3) =>
            match parseStep fuel .mul st3 with
            | (.p1 (some right), st4) =>
              (.p1 (some (.Expr .Divide [left, right])), st4)
            | (_, st4) => (.p1 Option.none, st4)
          | (Option.none, st3) => (.p1 (some left), st3)
      | (_, st1) => (.p1 Option.none, st1)
    | .postfixExpr =>
      match parseStep fuel .value st with
      | (.p1 (some inner), st1) => parseStep fuel (.postfixLoop inner) st1
      | (_, st1) => (.p1 Option.none, st1)
    | .value =>
      match st.optional_consume_identifier with
      | (some (.Identifier s), st1) => (.p1 (some (.IdentifierValue s)), st1)
      | (some _, st1) => (.p1 Option.none, st1)
      | (Option.none, st0) =>
        match st0.optional_consume_number with
        | (some (.NumericLiteral q), st1) => (.p1 (some (.NumericValue q)), st1)
        | (some _, st1) => (.p1 Option.none, st1)
        | (Option.none, st1) =>
          match st1.optional_consume_symbol "(" with
          | (some _, st2) =>
            match parseStep fuel .expr st2 with
            | (.p1 value, st3) =>
              -- the result of `enforce_consume_symbol(")")` is discarded
              let (_, st4) := st3.enforce_consume_symbol ")"
              (.p1 value, st4)
            | (_, st3) => (.p1 Option.none, st3)
          | (Option.none, st2) =>
            match st2.expect_token with
            | (some _, st3) => (.p1 Option.none, st3.add_error "expected value")
            | (Option.none, st3) => (.p1 Option.none, st3)
    | .postfixLoop inner =>
      match st.optional_consume_symbol "." with
      | (some _, st1) =>
        match parseStep fuel .value st1 with
        | (.p1 (some member), st2) =>
          parseStep fuel (.postfixLoop (.Expr .MemberAccess [inner, member])) st2
        | (_, st2) => (.p1 Option.none, st2)
      | (Option.none, st1) =>
        match st1.optional_consume_symbol "[" with
        | (some _, st2) =>
          match parseStep fuel .expr st2 with
          | (.p1 (some index), st3) =>
            match st3.enforce_consume_symbol "]" with
            | (some _, st4) =>
              parseStep fuel (.postfixLoop (.Expr .Indexing [inner, index])) st4
            | (Option.none, st4) => (.p1 Option.none, st4)
          | (_, st3) => (.p1 Option.none, st3)
        | (Option.none, st2) =>
          match st2.optional_consume_symbol "(" with
          | (some _, st3) =>
            match parseStep fuel (.callArgs [inner]) st3 with
            | (.p2 (some children), st4) =>
              match st4.enforce_consume_symbol ")" with
              | (some _, st5) =>
                parseStep fuel (.postfixLoop (.Expr .FunctionCall children)) st5
              | (Option.none, st5) => (.p1 Option.none, st5)
            | (_, st4) => (.p1 Option.none, st4)
          | (Option.none, st3) => (.p1 (some inner), st3)
    | .callArgs acc =>
      match parseStep fuel .expr st with
      | (.p1 (some arg), st1) =>
        match st1.optional_consume_symbol "," with
        | (some _, st2) => parseStep fuel (.callArgs (acc ++ [arg])) st2
        | (Option.none, st2) => (.p2 (some (acc ++ [arg])), st2)
      | (_, st1) => (.p2 Option.none, st1)

/-- `ParserContext::parse_expression` on a token stream. -/
def parse_expression (fuel : Nat) (tokens : List TokenData) :
    Option PTree × ParserSt :=
  match parseStep fuel .expr { tokens := tokens, errors := [], failed := false } with
  | (.p1 t, st) => (t, st)
  | (_, st) => (Option.none, st)

/-- `ParserContext::parse_additive_expressions` on a token stream. -/
def parse_additive_expressions (fuel : Nat) (tokens : List TokenData) :
    Option PTree × ParserSt :=
  match parseStep fuel .add { tokens := tokens, errors := [], failed := false } with
  | (.p1 t, st) => (t, st)
  | (_, st) => (Option.none, st)

end CLRS

namespace CLRS

/-! ## Concrete programs used by the claims -/

/-- `Test()\n  return True` -/
def progReturnTrue : List PTree :=
  [.Function "Test" []
    (.Block [.ReturnStatement (some (.IdentifierValue "True"))])]

/-- `Test()\n  return False` -/
def progReturnFalse : List PTree :=
  [.Function "Test" []
    (.Block [.ReturnStatement (some (.IdentifierValue "False"))])]

/-- `Test()\n  if 1 < 2\n    return 7\n  else\n    return 8` -/
def progIfReturn : List PTree :=
  [.Function "Test" []
    (.Block [.IfStatement
      [(.Expr .LessThan [.NumericValue 1, .NumericValue 2],
        .Block [.ReturnStatement (some (.NumericValue 7))])]
      (some (.Block [.ReturnStatement (some (.NumericValue 8))]))])]

/-- `Test()\n  return G(1, 2)\nG(a)\n  return 5` -/
def progArgMismatch : List PTree :=
  [.Function "Test" []
    (.Block [.ReturnStatement (some (.Expr .FunctionCall
      [.IdentifierValue "G", .NumericValue 1, .NumericValue 2]))]),
   .Function "G" ["a"]
    (.Block [.ReturnStatement (some (.NumericValue 5))])]

/-- `Test()\n  return (1 < 2) and 5` -/
def progAndNumber : List PTree :=
  [.Function "Test" []
    (.Block [.ReturnStatement (some (.Expr .LogicalAnd
      [.Expr .LessThan [.NumericValue 1, .NumericValue 2],
       .NumericValue 5]))])]

/-- `Test()\n  return (1 > 2) and undefined` (the right operand is an
undefined variable, only reachable if the evaluation fails to
short-circuit) -/
def progAndShortCircuit : List PTree :=
  [.Function "Test" []
    (.Block [.ReturnStatement (some (.Expr .LogicalAnd
      [.Expr .GreaterThan [.NumericValue 1, .NumericValue 2],
       .IdentifierValue "undefined"]))])]

/-- `Test()\n  return (1 < 2) or undefined` -/
def progOrShortCircuit : List PTree :=
  [.Function "Test" []
    (.Block [.ReturnStatement (some (.Expr .LogicalOr
      [.Expr .LessThan [.NumericValue 1, .NumericValue 2],
       .IdentifierValue "undefined"]))])]

/-- `Test()\n  return (1 > 2) or 5` -/
def progOrNumber : List PTree :=
  [.Function "Test" []
    (.Block [.ReturnStatement (some (.Expr .LogicalOr
      [.Expr .GreaterThan [.NumericValue 1, .NumericValue 2],
       .NumericValue 5]))])]

/-- `Test()\n  i = 0\n  while i < 3\n    i = i + 1\n  return i` -/
def progWhileCount : List PTree :=
  [.Function "Test" []
    (.Block
      [.Expr .Assignment [.IdentifierValue "i", .NumericValue 0],
       .WhileLoop (.Expr .LessThan [.IdentifierValue "i", .NumericValue 3])
         (.Block [.Expr .Assignment [.IdentifierValue "i",
           .Expr .Add [.IdentifierValue "i", .NumericValue 1]]]),
       .ReturnStatement (some (.IdentifierValue "i"))])]

/-- `Test()\n  i = 0\n  for k = 1 to 5\n    i = i + k\n  return i` -/
def progForSum : List PTree :=
  [.Function "Test" []
    (.Block
      [.Expr .Assignment [.IdentifierValue "i", .NumericValue 0],
       .ForLoop "k" (.NumericValue 1) (.NumericValue 5) false
         (.Block [.Expr .Assignment [.IdentifierValue "i",
           .Expr .Add [.IdentifierValue "i", .IdentifierValue "k"]]]),
       .ReturnStatement (some (.IdentifierValue "i"))])]

/-- `Test()\n  x = Array(1, 2)\n  y = x\n  y[1] = 9\n  return x[1]` -/
def progAlias : List PTree :=
  [.Function "Test" []
    (.Block
      [.Expr .Assignment [.IdentifierValue "x",
        .Expr .FunctionCall [.IdentifierValue "Array", .NumericValue 1, .NumericValue 2]],
       .Expr .Assignment [.IdentifierValue "y", .IdentifierValue "x"],
       .Expr .Assignment [.Expr .Indexing [.IdentifierValue "y", .NumericValue 1],
         .NumericValue 9],
       .ReturnStatement (some (.Expr .Indexing [.IdentifierValue "x", .NumericValue 1]))])]

/-- `Test()\n  x = Array(1, 2)\n  y = x\n  x.heapsize = 7\n  return y.heapsize` -/
def progAliasHeapsize : List PTree :=
  [.Function "Test" []
    (.Block
      [.Expr .Assignment [.IdentifierValue "x",
        .Expr .FunctionCall [.IdentifierValue "Array", .NumericValue 1, .NumericValue 2]],
       .Expr .Assignment [.IdentifierValue "y", .IdentifierValue "x"],
       .Expr .Assignment
         [.Expr .MemberAccess [.IdentifierValue "x", .IdentifierValue "heapsize"],
          .NumericValue 7],
       .ReturnStatement (some
         (.Expr .MemberAccess [.IdentifierValue "y", .IdentifierValue "heapsize"]))])]

/-- The token stream of `9 - 5 - 2`. -/
def toks952 : List TokenData :=
  [.NumericLiteral 9, .Symbol "-", .NumericLiteral 5, .Symbol "-",
   .NumericLiteral 2, .EndOfFile]

end CLRS

namespace CLRS

/-! ## Fixtures shared by the theorems -/

/-- The parse tree of `9 - 5 - 2` (right-associative). -/
def sub952 : PTree :=
  .Expr .Subtract [.NumericValue 9,
    .Expr .Subtract [.NumericValue 5, .NumericValue 2]]

/-- `Test()\n  return 9 - 5 - 2` -/
def progSub952 : List PTree :=
  [.Function "Test" [] (.Block [.ReturnStatement (some sub952)])]

/-- The result of `Array(10)`: a one-element array and the heap holding it. -/
def array10 : Value × Heap := builtin_array Heap.empty [.Number 10]

/-- A one-cell heap holding the array `[10]` (heapsize 0). -/
def heap10 : Heap := ⟨[([Value.Number 10], Value.Number 0)]⟩

/-- An empty VM function, as frame context for `load_value` experiments. -/
def c10function : VMFunction :=
  { name := "Test", arguments := [], instructions := [], next_name := 0 }

/-- A frame whose variable `a` holds the array at address 0 of `heap10`. -/
def c10frame0 : ExecutionFrame :=
  { vars := [("a", .Array 0)],
    function := c10function,
    line := 0,
    last_updated := [],
    last_read := [],
    return_value := Option.none,
    passed_return := Option.none }

/-- The IR value `a.length` as `VMFunction::compile` produces it. -/
def c10value : VMValue :=
  .MemberAccess (.Variable (.token "a")) (.Variable (.token "length"))

/-- The frame after the VM evaluates `a.length` as a read. -/
def c10frameAfter : ExecutionFrame :=
  match ExecutionFrame.load_value heap10 c10frame0 c10value true with
  | .ok (_, fr') => fr'
  | .error _ => c10frame0

end CLRS

deriving instance DecidableEq for Except

namespace CLRS

/-! ## Theorems settling the claims -/

/-- Unfolding lemma: `builtin_indexing` on a two-element argument list. -/
theorem builtin_indexing_cons (h : Heap) (addr : Nat) (q : F64) :
    builtin_indexing h [.Array addr, .Number q]
    = (if F64.isInt q && F64.pos q then
        match h.get addr with
        | some (elems, _) =>
          match elems.get? (q.toUsize - 1) with
          | some v => .ok v
          | Option.none => .error (.messageError "index is out of bounds")
        | Option.none => .error .panic
      else .error (.messageError "index is not a positive integer")) := rfl

theorem F64.isInt_ofNatPair (i : Nat) : F64.isInt ⟨i, 1⟩ = true := by
  simp [F64.isInt]

theorem F64.pos_ofNatPair (i : Nat) (hi : 1 ≤ i) : F64.pos ⟨i, 1⟩ = true := by
  simp only [F64.pos, decide_eq_true_eq]
  exact_mod_cast hi

theorem F64.toUsize_ofNatPair (i : Nat) : F64.toUsize ⟨i, 1⟩ = i := by
  simp [F64.toUsize, Int.tdiv]

/-- C1: the claim states that both back ends evaluate the literal identifiers
`True`/`False` to booleans.  The tree interpreter does
(`ParseTreeNode::execute`, `IdentifierValue` arm), but the VM's
`ExecutionFrame::read_variable` has no such special case: a function whose
body is `return True` returns `Boolean(true)` under the interpreter and fails
with an undefined-variable error under the VM. -/
theorem c1_true_false_literals_vm_divergence :
    interpRun 100 progReturnTrue = .ok (some (.Boolean true))
    ∧ interpRun 100 progReturnFalse = .ok (some (.Boolean false))
    ∧ vmRunProgram 100 1000 progReturnTrue
        = .error (.genericError "variable 'True' is not defined")
    ∧ vmRunProgram 100 1000 progReturnFalse
        = .error (.genericError "variable 'False' is not defined") := by
  refine ⟨by decide, by decide, by decide, by decide⟩

/-- C2: the claim states that the two back ends agree on the return value of
every `Print`-free function, naming a `return` inside an if-branch as an
example.  On exactly that example they disagree: the interpreter's
`IfStatement` arm discards the executed block's `(value, return-flag)` result,
so the `return 7` is lost and the function returns `None`, while the VM
executes the lowered `Return` instruction and returns `Number(7)`. -/
theorem c2_backend_agreement_failure :
    interpRun 100 progIfReturn = .ok (some Value.none)
    ∧ vmRunProgram 100 1000 progIfReturn = .ok (.Number 7) := by
  refine ⟨by decide, by decide⟩

/-- C3: the claim states that calls with a wrong argument count fail in both
back ends.  The interpreter's `RunTime::inner_execute_function` does raise the
argument-count error (first conjunct, for every function table and mismatched
call); but the VM's `ExecutionFrame::new` binds parameters by `zip` with no
check, so `G(1, 2)` against `G(a)` silently drops the extra argument and the
program returns `Number(5)`. -/
theorem c3_argument_count_vm_unchecked :
    (∀ (ft : FuncTable) (fuel : Nat) (name : String) (argv : List Value)
       (f : FuncDef),
       assocLookup ft name = some f →
       argv.length ≠ f.arguments.length →
       inner_execute_function ft fuel name argv =
         .error (.argumentCountError f.arguments.length argv.length))
    ∧ interpRun 100 progArgMismatch = .error (.argumentCountError 1 2)
    ∧ vmRunProgram 100 1000 progArgMismatch = .ok (.Number 5) := by
  refine ⟨?_, by decide, by decide⟩
  intro ft fuel name argv f hl hn
  unfold inner_execute_function
  rw [hl]
  simp [hn]

/-- Witness for the universal part of `c3_argument_count_vm_unchecked`,
instantiated at the concrete program (calling the 1-parameter `G` with two
arguments). -/
theorem c3_argument_count_witness :
    inner_execute_function (RunTimeNew progArgMismatch) 7 "G"
      [.Number 1, .Number 2] = .error (.argumentCountError 1 2) :=
  c3_argument_count_vm_unchecked.1 (RunTimeNew progArgMismatch) 7 "G"
    [.Number 1, .Number 2]
    ⟨["a"], .Block [.ReturnStatement (some (.NumericValue 5))]⟩
    rfl (by decide)

/-- C4: the claim states that in either back end an evaluated `and`/`or`
operand must be a Boolean.  Short-circuiting itself holds in both back ends
(middle conjuncts: a decisive left operand yields its Boolean and the
undefined right operand is never evaluated), and the interpreter checks the
evaluated right operand; but the VM's lowering stores the right operand's
value unchecked, so `(1 < 2) and 5` is a type error under the interpreter and
`Number(5)` under the VM (likewise for `or`). -/
theorem c4_logical_ops_vm_right_operand_unchecked :
    interpRun 100 progAndNumber
        = .error (.messageError "cannot and value of type number")
    ∧ vmRunProgram 100 1000 progAndNumber = .ok (.Number 5)
    ∧ interpRun 100 progAndShortCircuit = .ok (some (.Boolean false))
    ∧ vmRunProgram 100 1000 progAndShortCircuit = .ok (.Boolean false)
    ∧ interpRun 100 progOrShortCircuit = .ok (some (.Boolean true))
    ∧ vmRunProgram 100 1000 progOrShortCircuit = .ok (.Boolean true)
    ∧ interpRun 100 progOrNumber
        = .error (.messageError "cannot or value of type number")
    ∧ vmRunProgram 100 1000 progOrNumber = .ok (.Number 5) := by
  refine ⟨by decide, by decide, by decide, by decide, by decide, by decide,
    by decide, by decide⟩

/-- C5: `ParseTreeNode::execute` has no `WhileLoop` arm: for every function
table, fuel, condition, body and state, executing a `WhileLoop` node hits the
`todo!` catch-all (modelled `Err.panic`).  The VM back end runs the same loop
fine (`i = 0; while i < 3: i = i + 1; return i` gives `Number(3)`), while the
interpreter panics on it. -/
theorem c5_while_interpreter_panics :
    (∀ (ft : FuncTable) (fuel : Nat) (condition block : PTree) (st : St),
       interp ft (fuel + 1) (.node (.WhileLoop condition block)) st
         = .error .panic)
    ∧ interpRun 100 progWhileCount = .error .panic
    ∧ vmRunProgram 100 1000 progWhileCount = .ok (.Number 3) :=
  ⟨fun _ _ _ _ _ => rfl, by decide, by decide⟩

/-- C6: the for loop's upper bound is inclusive: `i = 0; for k = 1 to 5:
i = i + k; return i` returns `Number(15)` (= 1+2+3+4+5, one body execution
per k in {1,..,5}) under the tree interpreter and under the VM. -/
theorem c6_for_loop_inclusive_bound :
    interpRun 100 progForSum = .ok (some (.Number 15))
    ∧ vmRunProgram 100 1000 progForSum = .ok (.Number 15) := by
  refine ⟨by decide, by decide⟩

/-- C7: `builtin_indexing` is 1-based and total exactly on positive-integer
in-range indices: a positive integer `i ≤ length` returns the `i`-th element
(1-counted); a fractional index, a non-positive index, and an index above the
element count all fail; concretely `Array(10)[1] == 10` while `Array(10)[0]`
and `Array(10)[2]` fail. -/
theorem c7_indexing_one_based :
    (∀ (h : Heap) (elems : List Value) (hs : Value) (addr i : Nat) (v : Value),
       h.cells.get? addr = some (elems, hs) →
       elems.get? (i - 1) = some v →
       1 ≤ i →
       builtin_indexing h [.Array addr, .Number ⟨i, 1⟩] = .ok v)
    ∧ (∀ (h : Heap) (addr : Nat) (q : F64),
       q.isInt = false →
       builtin_indexing h [.Array addr, .Number q]
         = .error (.messageError "index is not a positive integer"))
    ∧ (∀ (h : Heap) (addr : Nat) (q : F64),
       q ≤ 0 →
       builtin_indexing h [.Array addr, .Number q]
         = .error (.messageError "index is not a positive integer"))
    ∧ (∀ (h : Heap) (elems : List Value) (hs : Value) (addr i : Nat),
       h.cells.get? addr = some (elems, hs) →
       elems.length < i →
       builtin_indexing h [.Array addr, .Number ⟨i, 1⟩]
         = .error (.messageError "index is out of bounds"))
    ∧ builtin_indexing array10.2 [array10.1, .Number 1] = .ok (.Number 10)
    ∧ builtin_indexing array10.2 [array10.1, .Number 0]
        = .error (.messageError "index is not a positive integer")
    ∧ builtin_indexing array10.2 [array10.1, .Number 2]
        = .error (.messageError "index is out of bounds") := by
  refine ⟨?_, ?_, ?_, ?_, by decide, by decide, by decide⟩
  · intro h elems hs addr i v hget hv hi
    rw [builtin_indexing_cons, F64.isInt_ofNatPair, F64.pos_ofNatPair i hi,
      F64.toUsize_ofNatPair]
    rw [List.get?_eq_getElem?] at hget hv
    simp [Heap.get, hget, hv]
  · intro h addr q hq
    rw [builtin_indexing_cons, hq]
    rfl
  · intro h addr q hq
    have hnp : q.num ≤ 0 := by
      have h0 : q.num * (1 : Int) ≤ 0 * q.den := hq
      rw [mul_one, zero_mul] at h0
      exact h0
    have hposf : F64.pos q = false := by
      simp only [F64.pos, decide_eq_false_iff_not]
      omega
    rw [builtin_indexing_cons, hposf]
    simp
  · intro h elems hs addr i hget hlen
    have hi : 1 ≤ i := by omega
    have hnone : elems.get? (i - 1) = Option.none := by
      apply List.get?_eq_none.mpr
      omega
    rw [builtin_indexing_cons, F64.isInt_ofNatPair, F64.pos_ofNatPair i hi,
      F64.toUsize_ofNatPair]
    rw [List.get?_eq_getElem?] at hget hnone
    simp [Heap.get, hget, hnone]

/-- Witness for the universal parts of `c7_indexing_one_based`, instantiated
at the one-element array `[10]`: index 1 succeeds, 1/2 is fractional, 0 is
non-positive, 2 is out of range. -/
theorem c7_indexing_one_based_witness :
    builtin_indexing heap10 [.Array 0, .Number ⟨1, 1⟩] = .ok (.Number 10)
    ∧ builtin_indexing heap10 [.Array 0, .Number ⟨1, 2⟩]
        = .error (.messageError "index is not a positive integer")
    ∧ builtin_indexing heap10 [.Array 0, .Number ⟨0, 1⟩]
        = .error (.messageError "index is not a positive integer")
    ∧ builtin_indexing heap10 [.Array 0, .Number ⟨2, 1⟩]
        = .error (.messageError "index is out of bounds") :=
  ⟨c7_indexing_one_based.1 heap10 [.Number 10] (.Number 0) 0 1 (.Number 10)
      rfl rfl (by decide),
   c7_indexing_one_based.2.1 heap10 0 ⟨1, 2⟩ (by decide),
   c7_indexing_one_based.2.2.1 heap10 0 ⟨0, 1⟩ (by decide),
   c7_indexing_one_based.2.2.2.1 heap10 [.Number 10] (.Number 0) 0 2 rfl
     (by decide)⟩

/-- C8: arrays are shared mutable state: after `x = Array(1,2); y = x;
y[1] = 9`, reading `x[1]` through the other alias yields `Number(9)`; and the
heapsize slot is equally shared (`x.heapsize = 7` is visible as
`y.heapsize`). -/
theorem c8_array_aliasing :
    interpRun 100 progAlias = .ok (some (.Number 9))
    ∧ interpRun 100 progAliasHeapsize = .ok (some (.Number 7)) := by
  refine ⟨by decide, by decide⟩

/-- C9: the additive level (like all binary levels 2–7) parses
right-recursively: for all numeric literals a, b, c the token chain
`a - b - c` parses as `Subtract(a, Subtract(b, c))`; concretely `9 - 5 - 2`
parses that way and evaluates to `Number(6)` (not `Number(2)`) in both back
ends. -/
theorem c9_right_associative_parsing :
    (∀ a b c : F64,
       parse_additive_expressions 32
         [.NumericLiteral a, .Symbol "-", .NumericLiteral b, .Symbol "-",
          .NumericLiteral c, .EndOfFile]
       = (some (.Expr .Subtract [.NumericValue a,
            .Expr .Subtract [.NumericValue b, .NumericValue c]]),
          { tokens := [.EndOfFile], errors := [], failed := false }))
    ∧ (parse_expression 32 toks952).1 = some sub952
    ∧ interpRun 100 progSub952 = .ok (some (.Number 6))
    ∧ vmRunProgram 100 1000 progSub952 = .ok (.Number 6)
    ∧ interpRun 100 progSub952 ≠ .ok (some (.Number 2)) :=
  ⟨fun _ _ _ => rfl, rfl, by decide, by decide, by decide⟩

/-- C10 counterexample: evaluating the read `a.length` in a frame where `a`
holds an array, the audit entry pushed onto `last_updated` is for the member
identifier `length`, not for the base variable `a`, and `a` *is* pushed onto
`last_read` — refuting the claim that the base variable's entry goes onto
`last_updated` and not onto `last_read`. -/
theorem c10_member_read_audit_counterexample :
    ¬ (UpdateData.variable "a" ∈ c10frameAfter.last_updated
       ∧ UpdateData.variable "a" ∉ c10frameAfter.last_read
       ∧ c10frameAfter.vars = c10frame0.vars) := by
  decide

/-- C10 amended: when the VM evaluates a `MemberAccess` IR value with a
variable base and identifier member as a read, the entry pushed onto
`last_updated` is for the *member identifier* (via `touch_variable` on the
member's token), the base variable's entry is pushed onto `last_read` (the
base is loaded with reporting), and the frame's variable map is left
unchanged. -/
theorem c10_member_read_audit_amended :
    ∀ (h : Heap) (fr : ExecutionFrame) (b mem : String) (v : Value)
      (fr' : ExecutionFrame),
      ExecutionFrame.load_value h fr
        (.MemberAccess (.Variable (.token b)) (.Variable (.token mem))) true
        = .ok (v, fr') →
      fr'.vars = fr.vars
      ∧ fr'.last_updated = fr.last_updated ++ [UpdateData.variable mem]
      ∧ fr'.last_read = fr.last_read ++ [UpdateData.variable b] := by
  intro h fr b mem v fr' heq
  rcases hl : assocLookup fr.vars b with _ | w
  · simp [ExecutionFrame.load_value, VMValue.get_token, VMVariable.get_token,
      unwrapToken, ExecutionFrame.read_variable, VMVariable.extract_text,
      ExecutionFrame.touch_variable, hl] at heq
  · simp [ExecutionFrame.load_value, VMValue.get_token, VMVariable.get_token,
      unwrapToken, ExecutionFrame.read_variable, VMVariable.extract_text,
      ExecutionFrame.touch_variable, hl] at heq
    rcases hm : builtin_member_access h w mem with e | r
    · rw [hm] at heq
      simp [Except.map] at heq
    · rw [hm] at heq
      simp [Except.map] at heq
      rw [← heq.2]
      exact ⟨rfl, rfl, rfl⟩

/-- Witness for `c10_member_read_audit_amended` at the concrete frame holding
`a ↦ Array`, reading `a.length`. -/
theorem c10_member_read_audit_witness :
    ExecutionFrame.load_value heap10 c10frame0 c10value true
      = .ok (.Number 1, c10frameAfter)
    ∧ (c10frameAfter.vars = c10frame0.vars
       ∧ c10frameAfter.last_updated
           = c10frame0.last_updated ++ [UpdateData.variable "length"]
       ∧ c10frameAfter.last_read
           = c10frame0.last_read ++ [UpdateData.variable "a"]) :=
  ⟨rfl,
   c10_member_read_audit_amended heap10 c10frame0 "a" "length" (.Number 1)
     c10frameAfter rfl⟩

end CLRS
